import Mathlib

/-!
Verification of the model layer of the `yandex_market_language` repository
(files `models/shop.py`, `models/feed.py`, tests in `tests/test_models.py`).

The development shallowly embeds the data model (Feed, Shop, the leaf
entities, the polymorphic offer family), the canonical-dict and canonical-XML
encoders, the tree decoder `Shop.from_xml`, and the streaming decoder
`Shop.from_iterator`.  XML elements are modelled by a small inductive type
mirroring `xml.etree.ElementTree.Element` (tag, attribute list, optional
text, children); the streaming token sequence is the list of
(event-kind, element) pairs a pull tokenizer would produce, with
`Event.opened` / `Event.closed` standing for the source's `'start'` /
`'end'` event strings.

Modules of the repository that are not present under `src/` (the
`abstract`, `fields`, `exceptions` modules and the leaf/offer entity
modules) are modelled from the spec; each such definition carries a doc
comment starting with `Modelled from the spec:`.
-/

/-- Streaming event kind: `opened` is the source's `'start'` event,
`closed` is the source's `'end'` event. -/
inductive Event where
  | opened : Event
  | closed : Event
deriving DecidableEq, Repr

/-- In-memory XML element, mirroring `xml.etree.ElementTree.Element`:
a tag, an attribute mapping (modelled as an association list), optional
text content, and the list of child elements. -/
inductive XMLElement where
  | mk (tag : String) (attrs : List (String × String)) (text : Option String)
       (children : List XMLElement) : XMLElement

/-- The element's tag. -/
def XMLElement.tag : XMLElement → String
  | .mk t _ _ _ => t

/-- The element's attribute list (`el.attrib`). -/
def XMLElement.attrs : XMLElement → List (String × String)
  | .mk _ a _ _ => a

/-- The element's text content (`el.text`; `none` models Python `None`). -/
def XMLElement.text : XMLElement → Option String
  | .mk _ _ tx _ => tx

/-- The element's children (iteration over the element). -/
def XMLElement.children : XMLElement → List XMLElement
  | .mk _ _ _ cs => cs

@[simp] theorem XMLElement.tag_mk (t : String) (a : List (String × String))
    (tx : Option String) (cs : List XMLElement) :
    (XMLElement.mk t a tx cs).tag = t := rfl

@[simp] theorem XMLElement.attrs_mk (t : String) (a : List (String × String))
    (tx : Option String) (cs : List XMLElement) :
    (XMLElement.mk t a tx cs).attrs = a := rfl

@[simp] theorem XMLElement.text_mk (t : String) (a : List (String × String))
    (tx : Option String) (cs : List XMLElement) :
    (XMLElement.mk t a tx cs).text = tx := rfl

@[simp] theorem XMLElement.children_mk (t : String) (a : List (String × String))
    (tx : Option String) (cs : List XMLElement) :
    (XMLElement.mk t a tx cs).children = cs := rfl

/-- One streaming token: an event kind paired with the element it refers
to.  As with `iterparse`, the element carried by the token is the complete
element (the code only reads `tag`/`attrib` at `'start'` events and
`tag`/`text` at `'end'` events, so carrying the complete element at both is
faithful). -/
abbrev Token := Event × XMLElement

mutual

/-- The (event, element) token sequence of a materialized element: its
`'start'` token, the token sequences of its children, then its `'end'`
token. -/
def eventsOf : XMLElement → List Token
  | .mk t a tx cs =>
    (Event.opened, XMLElement.mk t a tx cs) ::
      (eventsOfList cs ++ [(Event.closed, XMLElement.mk t a tx cs)])

/-- Token sequence of a list of sibling elements. -/
def eventsOfList : List XMLElement → List Token
  | [] => []
  | c :: cs => eventsOf c ++ eventsOfList cs

end

/-- Values appearing in the nested key-value (dict) representation
produced by `create_dict`/`to_dict`. -/
inductive DVal where
  | s : String → DVal
  | b : Bool → DVal
  | none : DVal
  | dt : Nat → Nat → Nat → Nat → Nat → Nat → DVal
  | list : List DVal → DVal
  | dict : List (String × DVal) → DVal

/-- The two error kinds of the repository: `exceptions.ValidationError`
(and its subtypes, identified by their message), `exceptions.ParseError`,
and Python's `TypeError` for a constructor called with a missing required
argument. -/
inductive Err where
  | validation (msg : String) : Err
  | parse (msg : String) : Err
  | typeErr (msg : String) : Err
deriving DecidableEq, Repr

/-- A datetime value, as produced by `datetime.strptime` on one of the two
accepted formats. -/
structure DateTime where
  year : Nat
  month : Nat
  day : Nat
  hour : Nat
  minute : Nat
  second : Nat
deriving DecidableEq, Repr

/-- The ranges `strptime` accepts for the components of the two date
formats (field directives `%Y %m %d %H %M %S`). -/
def ValidDT (d : DateTime) : Prop :=
  d.year < 10000 ∧ 1 ≤ d.month ∧ d.month ≤ 12 ∧ 1 ≤ d.day ∧ d.day ≤ 31 ∧
    d.hour ≤ 23 ∧ d.minute ≤ 59 ∧ d.second ≤ 59

instance (d : DateTime) : Decidable (ValidDT d) := by
  unfold ValidDT; infer_instance

/-- The decimal digit character for `n % 10`. -/
def digitChar (n : Nat) : Char := Char.ofNat (48 + n % 10)

/-- Two-digit zero-padded rendering (`%m %d %H %M %S`). -/
def pad2 (n : Nat) : List Char := [digitChar (n / 10), digitChar n]

/-- Four-digit zero-padded rendering (`%Y`). -/
def pad4 (n : Nat) : List Char :=
  [digitChar (n / 1000), digitChar (n / 100), digitChar (n / 10), digitChar n]

/-- `strftime` with the primary format `"%Y-%m-%d %H:%M:%S"`
(`DATE_FORMAT` in `models/feed.py`). -/
def format_primary (d : DateTime) : String :=
  String.mk (pad4 d.year ++ '-' :: pad2 d.month ++ '-' :: pad2 d.day ++
    ' ' :: pad2 d.hour ++ ':' :: pad2 d.minute ++ ':' :: pad2 d.second)

/-- `strftime` with the fallback format `"%Y-%m-%d %H:%M"`
(`ALT_DATE_FORMAT` in `models/feed.py`). -/
def format_fallback (d : DateTime) : String :=
  String.mk (pad4 d.year ++ '-' :: pad2 d.month ++ '-' :: pad2 d.day ++
    ' ' :: pad2 d.hour ++ ':' :: pad2 d.minute)

/-- Decode a decimal digit character. -/
def digit? (c : Char) : Option Nat :=
  if c.isDigit then some (c.toNat - 48) else none

/-- Decode two digit characters as a two-digit number. -/
def digits2 (a b : Char) : Option Nat := do
  let x ← digit? a; let y ← digit? b; pure (10 * x + y)

/-- Decode four digit characters as a four-digit number. -/
def digits4 (a b c d : Char) : Option Nat := do
  let x ← digit? a; let y ← digit? b; let z ← digit? c; let w ← digit? d
  pure (1000 * x + 100 * y + 10 * z + w)

/-- `datetime.strptime(s, "%Y-%m-%d %H:%M:%S")`, modelled on canonical
zero-padded strings: the 19-character shape is decoded field by field and
the component ranges are checked; any other string fails. -/
def parse_primary (s : String) : Option DateTime :=
  match s.data with
  | [y1, y2, y3, y4, c1, m1, m2, c2, d1, d2, c3, h1, h2, c4, n1, n2, c5, s1, s2] =>
    if c1 = '-' ∧ c2 = '-' ∧ c3 = ' ' ∧ c4 = ':' ∧ c5 = ':' then do
      let y ← digits4 y1 y2 y3 y4
      let mo ← digits2 m1 m2
      let da ← digits2 d1 d2
      let h ← digits2 h1 h2
      let mi ← digits2 n1 n2
      let se ← digits2 s1 s2
      let d : DateTime := ⟨y, mo, da, h, mi, se⟩
      if ValidDT d then some d else none
    else none
  | _ => none

/-- `datetime.strptime(s, "%Y-%m-%d %H:%M")`, modelled on canonical
zero-padded strings; the seconds component of the result is `0`. -/
def parse_fallback (s : String) : Option DateTime :=
  match s.data with
  | [y1, y2, y3, y4, c1, m1, m2, c2, d1, d2, c3, h1, h2, c4, n1, n2] =>
    if c1 = '-' ∧ c2 = '-' ∧ c3 = ' ' ∧ c4 = ':' then do
      let y ← digits4 y1 y2 y3 y4
      let mo ← digits2 m1 m2
      let da ← digits2 d1 d2
      let h ← digits2 h1 h2
      let mi ← digits2 n1 n2
      let d : DateTime := ⟨y, mo, da, h, mi, 0⟩
      if ValidDT d then some d else none
    else none
  | _ => none

theorem digit?_digitChar (n : Nat) : digit? (digitChar n) = some (n % 10) := by
  have h : n % 10 < 10 := Nat.mod_lt _ (by norm_num)
  unfold digit? digitChar
  interval_cases h : n % 10 <;> decide

theorem parse_primary_format (d : DateTime) (h : ValidDT d) :
    parse_primary (format_primary d) = some d := by
  obtain ⟨h1, h2, h3, h4, h5, h6, h7, h8⟩ := h
  unfold parse_primary format_primary pad4 pad2
  simp only [String.data]
  simp only [List.cons_append, List.nil_append]
  simp only [digits4, digits2, digit?_digitChar, Option.bind_eq_bind,
    Option.some_bind, bind, pure]
  have hy : 1000 * (d.year / 1000 % 10) + 100 * (d.year / 100 % 10) +
      10 * (d.year / 10 % 10) + d.year % 10 = d.year := by omega
  have hmo : 10 * (d.month / 10 % 10) + d.month % 10 = d.month := by omega
  have hda : 10 * (d.day / 10 % 10) + d.day % 10 = d.day := by omega
  have hh : 10 * (d.hour / 10 % 10) + d.hour % 10 = d.hour := by omega
  have hmi : 10 * (d.minute / 10 % 10) + d.minute % 10 = d.minute := by omega
  have hse : 10 * (d.second / 10 % 10) + d.second % 10 = d.second := by omega
  have hval : ValidDT (⟨d.year, d.month, d.day, d.hour, d.minute, d.second⟩ : DateTime) :=
    ⟨h1, h2, h3, h4, h5, h6, h7, h8⟩
  simp [hy, hmo, hda, hh, hmi, hse, hval]

theorem parse_primary_valid {s : String} {d : DateTime}
    (h : parse_primary s = some d) : ValidDT d := by
  unfold parse_primary at h
  split at h
  · split at h
    · simp only [Option.bind_eq_bind, bind, Option.some_bind] at h
      rcases hy : digits4 _ _ _ _ with _ | y <;> rw [hy] at h <;>
        simp only [Option.none_bind, Option.some_bind] at h
      · exact absurd h (by simp)
      rcases hmo : digits2 _ _ with _ | mo <;> rw [hmo] at h <;>
        simp only [Option.none_bind, Option.some_bind] at h
      · exact absurd h (by simp)
      rcases hda : digits2 _ _ with _ | da <;> rw [hda] at h <;>
        simp only [Option.none_bind, Option.some_bind] at h
      · exact absurd h (by simp)
      rcases hh : digits2 _ _ with _ | hh' <;> rw [hh] at h <;>
        simp only [Option.none_bind, Option.some_bind] at h
      · exact absurd h (by simp)
      rcases hmi : digits2 _ _ with _ | mi <;> rw [hmi] at h <;>
        simp only [Option.none_bind, Option.some_bind] at h
      · exact absurd h (by simp)
      rcases hse : digits2 _ _ with _ | se <;> rw [hse] at h <;>
        simp only [Option.none_bind, Option.some_bind] at h
      · exact absurd h (by simp)
      split at h
      · next hv => cases h; exact hv
      · exact absurd h (by simp)
    · exact absurd h (by simp)
  · exact absurd h (by simp)

theorem parse_fallback_valid {s : String} {d : DateTime}
    (h : parse_fallback s = some d) : ValidDT d := by
  unfold parse_fallback at h
  split at h
  · split at h
    · simp only [Option.bind_eq_bind, bind, Option.some_bind] at h
      rcases hy : digits4 _ _ _ _ with _ | y <;> rw [hy] at h <;>
        simp only [Option.none_bind, Option.some_bind] at h
      · exact absurd h (by simp)
      rcases hmo : digits2 _ _ with _ | mo <;> rw [hmo] at h <;>
        simp only [Option.none_bind, Option.some_bind] at h
      · exact absurd h (by simp)
      rcases hda : digits2 _ _ with _ | da <;> rw [hda] at h <;>
        simp only [Option.none_bind, Option.some_bind] at h
      · exact absurd h (by simp)
      rcases hh : digits2 _ _ with _ | hh' <;> rw [hh] at h <;>
        simp only [Option.none_bind, Option.some_bind] at h
      · exact absurd h (by simp)
      rcases hmi : digits2 _ _ with _ | mi <;> rw [hmi] at h <;>
        simp only [Option.none_bind, Option.some_bind] at h
      · exact absurd h (by simp)
      split at h
      · next hv => cases h; exact hv
      · exact absurd h (by simp)
    · exact absurd h (by simp)
  · exact absurd h (by simp)

theorem parse_fallback_format_primary (d : DateTime) :
    parse_fallback (format_primary d) = none := by
  unfold parse_fallback format_primary pad4 pad2
  simp

theorem parse_primary_format_fallback (d : DateTime) :
    parse_primary (format_fallback d) = none := by
  unfold parse_primary format_fallback pad4 pad2
  simp

/-- `DVal` for an optional string (`None` ↦ the absence marker). -/
def optS : Option String → DVal
  | some v => DVal.s v
  | none => DVal.none

/-- A leaf child element holding one scalar field: `<tag>text</tag>`. -/
def fieldEl (kv : String × String) : XMLElement :=
  XMLElement.mk kv.1 [] (some kv.2) []

/-- Collect the child elements of `el` as a (tag, text) field bag. -/
def fieldsOf (el : XMLElement) : List (String × String) :=
  el.children.map (fun c => (c.tag, c.text.getD ""))

theorem fieldsOf_map_fieldEl (t : String) (a : List (String × String))
    (tx : Option String) (l : List (String × String)) :
    fieldsOf (XMLElement.mk t a tx (l.map fieldEl)) = l := by
  unfold fieldsOf
  rw [XMLElement.children]
  induction l with
  | nil => rfl
  | cons kv l ih =>
    simp only [List.map_cons]
    rw [ih]
    rfl

/-- Modelled from the spec: the `Currency` leaf entity
(`models/currency.py` is not under `src/`).  Per §3/§4.2/§6 it holds a
currency code, a rate (numeric literal or special token) and an optional
integer markup `plus`; all three are carried as XML attribute strings and
the dict mirrors the XML field set, so the fields are modelled as
strings.  The §4.2 field validation (choice sets for the code and the
rate) is not modelled: the concrete choice sets are not given in the spec
and no verified claim depends on leaf-field validation. -/
structure Currency where
  currency : String
  rate : String
  plus : Option String
deriving DecidableEq, Repr

/-- Modelled from the spec: `Currency.create_xml` — an empty `currency`
element with all fields as attributes, `plus` omitted when `None`. -/
def Currency.to_xml (c : Currency) : XMLElement :=
  XMLElement.mk "currency"
    ([("id", c.currency), ("rate", c.rate)] ++
      (match c.plus with | some p => [("plus", p)] | none => [])) none []

/-- Modelled from the spec: `Currency.from_xml` reads the attributes back. -/
def Currency.from_xml (el : XMLElement) : Currency :=
  ⟨(el.attrs.lookup "id").getD "", (el.attrs.lookup "rate").getD "",
    el.attrs.lookup "plus"⟩

/-- Modelled from the spec: `Currency.create_dict` with keys
`id`/`rate`/`plus` (as exercised by `CurrencyModelTestCase.test_to_dict`). -/
def Currency.to_dict (c : Currency) : DVal :=
  DVal.dict [("id", DVal.s c.currency), ("rate", DVal.s c.rate),
    ("plus", optS c.plus)]

theorem currency_from_to_xml (c : Currency) :
    Currency.from_xml (Currency.to_xml c) = c := by
  rcases c with ⟨cu, r, p⟩
  cases p <;> rfl

/-- A member of `Shop.currencies`.  The Python list is untyped and
`Shop.create_xml` explicitly tests `isinstance(c, str)`, so a member is
either a genuine `Currency` or a plain string. -/
inductive CurrencyItem where
  | cur (c : Currency) : CurrencyItem
  | str (s : String) : CurrencyItem
deriving DecidableEq, Repr

/-- Modelled from the spec: the `Category` leaf entity — `id` (attribute),
`name` (element text), optional `parent_id` (attribute, omitted when
`None`). -/
structure Category where
  category_id : String
  name : String
  parent_id : Option String
deriving DecidableEq, Repr

/-- Modelled from the spec: `Category.create_xml`. -/
def Category.to_xml (c : Category) : XMLElement :=
  XMLElement.mk "category"
    ([("id", c.category_id)] ++
      (match c.parent_id with | some p => [("parent_id", p)] | none => []))
    (some c.name) []

/-- Modelled from the spec: `Category.from_xml`. -/
def Category.from_xml (el : XMLElement) : Category :=
  ⟨(el.attrs.lookup "id").getD "", el.text.getD "",
    el.attrs.lookup "parent_id"⟩

/-- Modelled from the spec: `Category.create_dict` with keys
`id`/`name`/`parent_id`. -/
def Category.to_dict (c : Category) : DVal :=
  DVal.dict [("id", DVal.s c.category_id), ("name", DVal.s c.name),
    ("parent_id", optS c.parent_id)]

theorem category_from_to_xml (c : Category) :
    Category.from_xml (Category.to_xml c) = c := by
  rcases c with ⟨ci, n, p⟩
  cases p <;> rfl

/-- Modelled from the spec: the `Option` leaf entity (delivery/pickup
option) — `cost`, `days`, optional `order_before`, all attributes.
Named `Option'` because `Option` is taken by Lean. -/
structure Option' where
  cost : String
  days : String
  order_before : Option String
deriving DecidableEq, Repr

/-- Modelled from the spec: `Option.create_xml` — attributes only,
`order_before` omitted when `None`. -/
def Option'.to_xml (o : Option') : XMLElement :=
  XMLElement.mk "option"
    ([("cost", o.cost), ("days", o.days)] ++
      (match o.order_before with | some p => [("order_before", p)] | none => []))
    none []

/-- Modelled from the spec: `Option.from_xml`. -/
def Option'.from_xml (el : XMLElement) : Option' :=
  ⟨(el.attrs.lookup "cost").getD "", (el.attrs.lookup "days").getD "",
    el.attrs.lookup "order_before"⟩

/-- Modelled from the spec: `Option.create_dict` with keys
`cost`/`days`/`order_before`. -/
def Option'.to_dict (o : Option') : DVal :=
  DVal.dict [("cost", DVal.s o.cost), ("days", DVal.s o.days),
    ("order_before", optS o.order_before)]

theorem option_from_to_xml (o : Option') :
    Option'.from_xml (Option'.to_xml o) = o := by
  rcases o with ⟨c, d, p⟩
  cases p <;> rfl

/-- Modelled from the spec: the `Gift` leaf entity.  §1 excludes its exact
shape as a "near-identical simple leaf entity", so it is modelled as a bag
of scalar (tag, text) fields carried as child elements. -/
structure Gift where
  fields : List (String × String)
deriving DecidableEq, Repr

/-- Modelled from the spec: `Gift.create_xml`. -/
def Gift.to_xml (g : Gift) : XMLElement :=
  XMLElement.mk "gift" [] none (g.fields.map fieldEl)

/-- Modelled from the spec: `Gift.from_xml`. -/
def Gift.from_xml (el : XMLElement) : Gift :=
  ⟨fieldsOf el⟩

/-- Modelled from the spec: `Gift.create_dict`. -/
def Gift.to_dict (g : Gift) : DVal :=
  DVal.dict (g.fields.map (fun kv => (kv.1, DVal.s kv.2)))

theorem gift_from_to_xml (g : Gift) :
    Gift.from_xml (Gift.to_xml g) = g := by
  rcases g with ⟨fs⟩
  simp [Gift.from_xml, Gift.to_xml, fieldsOf_map_fieldEl]

/-- Modelled from the spec: the `Promo` leaf entity, analogous to
`Gift`. -/
structure Promo where
  fields : List (String × String)
deriving DecidableEq, Repr

/-- Modelled from the spec: `Promo.create_xml`. -/
def Promo.to_xml (p : Promo) : XMLElement :=
  XMLElement.mk "promo" [] none (p.fields.map fieldEl)

/-- Modelled from the spec: `Promo.from_xml`. -/
def Promo.from_xml (el : XMLElement) : Promo :=
  ⟨fieldsOf el⟩

/-- Modelled from the spec: `Promo.create_dict`. -/
def Promo.to_dict (p : Promo) : DVal :=
  DVal.dict (p.fields.map (fun kv => (kv.1, DVal.s kv.2)))

theorem promo_from_to_xml (p : Promo) :
    Promo.from_xml (Promo.to_xml p) = p := by
  rcases p with ⟨fs⟩
  simp [Promo.from_xml, Promo.to_xml, fieldsOf_map_fieldEl]

/-- The closed family of offer kinds, one per concrete variant class of
`models/offers.py`. -/
inductive OfferKind where
  | simplified
  | arbitrary
  | book
  | audiobook
  | musicVideo
  | medicine
  | eventTicket
  | alcohol
deriving DecidableEq, Repr

/-- The `type` discriminant attribute each variant writes; the simplified
kind omits the attribute entirely. -/
def OfferKind.discriminant : OfferKind → Option String
  | .simplified => none
  | .arbitrary => some "vendor.model"
  | .book => some "book"
  | .audiobook => some "audiobook"
  | .musicVideo => some "artist.title"
  | .medicine => some "medicine"
  | .eventTicket => some "event-ticket"
  | .alcohol => some "alco"

/-- Modelled from the spec: one offer (`models/offers.py` is not under
`src/`).  §4.3 fixes the discriminant mechanics precisely but only gives
examples of the per-variant field sets, so an offer is modelled as its
kind, its `id` and `available` attributes, and a bag of scalar
(tag, text) child fields. -/
structure Offer where
  kind : OfferKind
  offer_id : String
  available : Option String
  fields : List (String × String)
deriving DecidableEq, Repr

/-- Modelled from the spec: `AbstractOffer.create_xml` — the `type`
attribute is emitted for every variant except the simplified kind, then
the remaining attributes and the child fields. -/
def Offer.to_xml (o : Offer) : XMLElement :=
  XMLElement.mk "offer"
    ((match o.kind.discriminant with | some t => [("type", t)] | none => []) ++
      [("id", o.offer_id)] ++
      (match o.available with | some a => [("available", a)] | none => []))
    none (o.fields.map fieldEl)

/-- The offer-type dispatch chain, embedded verbatim from
`Shop.from_xml` (`models/shop.py` lines 198-218); the same chain appears
verbatim in `Shop.from_iterator` (lines 307-327): `offer_type is None`
selects the simplified kind, seven known discriminant strings select
their variants, anything else raises
`ParseError("Got unexpected offer type: ...")`. -/
def offer_dispatch : Option String → Except Err OfferKind
  | none => Except.ok OfferKind.simplified
  | some t =>
    if t = "vendor.model" then Except.ok OfferKind.arbitrary
    else if t = "book" then Except.ok OfferKind.book
    else if t = "audiobook" then Except.ok OfferKind.audiobook
    else if t = "artist.title" then Except.ok OfferKind.musicVideo
    else if t = "medicine" then Except.ok OfferKind.medicine
    else if t = "event-ticket" then Except.ok OfferKind.eventTicket
    else if t = "alco" then Except.ok OfferKind.alcohol
    else Except.error (Err.parse ("Got unexpected offer type: " ++ t))

/-- Modelled from the spec: a variant's `from_xml`, decoding the offer
body from a materialized element once the kind has been selected. -/
def Offer.from_xml (kind : OfferKind) (el : XMLElement) : Offer :=
  ⟨kind, (el.attrs.lookup "id").getD "", el.attrs.lookup "available",
    fieldsOf el⟩

/-- Decoding one child of the `offers` wrapper in `Shop.from_xml`: read
the `type` attribute, dispatch, decode the body. -/
def offer_from_xml_elem (el : XMLElement) : Except Err Offer := do
  let kind ← offer_dispatch (el.attrs.lookup "type")
  Except.ok (Offer.from_xml kind el)

/-- Modelled from the spec: `AbstractOffer.create_dict`. -/
def Offer.to_dict (o : Offer) : DVal :=
  DVal.dict ([("type", optS o.kind.discriminant), ("id", DVal.s o.offer_id),
    ("available", optS o.available)] ++
    o.fields.map (fun kv => (kv.1, DVal.s kv.2)))

theorem Offer.dispatch_to_xml (o : Offer) :
    offer_dispatch ((Offer.to_xml o).attrs.lookup "type") =
      Except.ok o.kind := by
  rcases o with ⟨k, oid, av, fs⟩
  cases k <;> cases av <;> rfl

theorem offer_from_to_xml (o : Offer) :
    offer_from_xml_elem (Offer.to_xml o) = Except.ok o := by
  rcases o with ⟨k, oid, av, fs⟩
  unfold offer_from_xml_elem
  rw [Offer.dispatch_to_xml ⟨k, oid, av, fs⟩]
  show Except.ok (Offer.from_xml k (Offer.to_xml ⟨k, oid, av, fs⟩)) = _
  unfold Offer.from_xml Offer.to_xml
  rw [fieldsOf_map_fieldEl]
  cases k <;> cases av <;> rfl

/-- A value bound to one key of the keyword-argument dict that
`Shop.from_xml` / `Shop.from_iterator` accumulate: either the raw text of
a scalar child element, or one of the decoded collections. -/
inductive KVal where
  | scalar (v : Option String) : KVal
  | currencyList (l : List Currency) : KVal
  | categoryList (l : List Category) : KVal
  | optionList (l : List Option') : KVal
  | offerList (l : List Offer) : KVal
  | giftList (l : List Gift) : KVal
  | promoList (l : List Promo) : KVal
deriving DecidableEq, Repr

/-- The decoders' `kwargs` dict: an insertion-ordered association list. -/
abbrev Kwargs := List (String × KVal)

/-- Python dict assignment `kwargs[k] = v`: update in place if the key is
present, append otherwise. -/
def kwInsert (kw : Kwargs) (k : String) (v : KVal) : Kwargs :=
  if (kw.lookup k).isSome then
    kw.map (fun kv => if kv.1 = k then (k, v) else kv)
  else kw ++ [(k, v)]

/-- The `Shop` model (`models/shop.py`).  Scalar string fields are
`Option String` (`none` models Python `None`).
`enable_auto_discounts_raw` is the stored `_enable_auto_discounts`
slot.  The Python object can hold either `None` or a list in
`delivery_options` / `pickup_options` / `gifts` / `promos`; the two are
indistinguishable through `create_dict` / `create_xml` / decoding, so
`None` is collapsed to the empty list. -/
structure Shop where
  name : Option String
  company : Option String
  url : Option String
  platform : Option String
  version : Option String
  agency : Option String
  email : Option String
  currencies : List CurrencyItem
  categories : List Category
  delivery_options : List Option'
  pickup_options : List Option'
  enable_auto_discounts_raw : Option String
  offers : List Offer
  gifts : List Gift
  promos : List Promo
deriving DecidableEq, Repr

/-- The tokens accepted for `enable_auto_discounts`
(`ENABLE_AUTO_DISCOUNTS_CHOICES`, in the order the spec lists them). -/
def ENABLE_AUTO_DISCOUNTS_CHOICES : List String :=
  ["yes", "true", "1", "no", "false", "0"]

/-- The message of `EnableAutoDiscountsValidationError`, as asserted by
`ShopModelTestCase.test_enable_auto_discounts_validation_error`. -/
def eadErrorMsg : String :=
  "enable_auto_discounts should be True, False or str from available values: yes, true, 1, no, false, 0"

/-- A value assigned to `Shop.enable_auto_discounts`: Python `None`, a
boolean, or a string token. -/
inductive EADInput where
  | none : EADInput
  | bool (b : Bool) : EADInput
  | str (s : String) : EADInput
deriving DecidableEq, Repr

/-- Modelled from the spec: the `enable_auto_discounts` property setter of
the `fields.EnableAutoDiscountField` mixin (`models/fields.py` is not
under `src/`).  Per §3/§4.1/§8 and the tests: `None` stays `None`,
booleans and the fixed truthy/falsy tokens are normalized to the
`"true"` / `"false"` string literals at assignment (so the encode-time
invariant of §3 holds and `test_to_xml`'s
`el.text == shop._enable_auto_discounts` is satisfiable), and any other
token raises `EnableAutoDiscountsValidationError`.  Token matching is
exact, per the fixed `ENABLE_AUTO_DISCOUNTS_CHOICES` list. -/
def ead_set : EADInput → Except Err (Option String)
  | EADInput.none => Except.ok Option.none
  | EADInput.bool b => Except.ok (some (if b then "true" else "false"))
  | EADInput.str s =>
    if s = "yes" ∨ s = "true" ∨ s = "1" then Except.ok (some "true")
    else if s = "no" ∨ s = "false" ∨ s = "0" then Except.ok (some "false")
    else Except.error (Err.validation eadErrorMsg)

/-- Modelled from the spec: the `enable_auto_discounts` property getter —
the normalized boolean-or-absent view of the stored token.  A stored
value outside the normalized forms is unreachable through the setter; the
getter maps it to `none`. -/
def ead_get : Option String → Option Bool
  | some v => if v = "true" then some true else if v = "false" then some false else Option.none
  | Option.none => Option.none

/-- The `Shop.url` property setter exactly as written in `models/shop.py`
lines 80-82: `self._url = value`, with no validation whatsoever. -/
def Shop.url_set (value : Option String) : Option String := value

/-- Modelled from the spec: the url setter the spec (§3, §8 "URL bound")
and the repository's own test `test_url_validation_error` demand — reject
values longer than 512 characters with the length-violation
`ValidationError`. -/
def url_set_spec (value : Option String) : Except Err (Option String) :=
  match value with
  | Option.none => Except.ok Option.none
  | some v =>
    if v.length > 512 then
      Except.error (Err.validation "The maximum url length is 512 characters.")
    else Except.ok (some v)

/-- `Shop.__init__`: assigns every field through its setter; the
`enable_auto_discounts` setter is the only one that can fail (the url
setter in the source stores unchecked).  Optional collections default to
`None`, collapsed to `[]` (see `Shop`). -/
def Shop.init (name company : Option String) (currencies : List CurrencyItem)
    (categories : List Category) (offers : List Offer)
    (url platform version agency email : Option String)
    (delivery_options pickup_options : Option (List Option'))
    (enable_auto_discounts : EADInput)
    (gifts : Option (List Gift)) (promos : Option (List Promo)) :
    Except Err Shop := do
  let eadRaw ← ead_set enable_auto_discounts
  Except.ok {
    name := name, company := company, url := Shop.url_set url,
    platform := platform, version := version, agency := agency,
    email := email, currencies := currencies, categories := categories,
    delivery_options := delivery_options.getD [],
    pickup_options := pickup_options.getD [],
    enable_auto_discounts_raw := eadRaw,
    offers := offers, gifts := gifts.getD [], promos := promos.getD [] }

/-- Map a fallible function over a list, failing at the first failure
(the Option-monad traversal, written out structurally). -/
def mapOption (f : α → Option β) : List α → Option (List β)
  | [] => some []
  | a :: l => do
    let b ← f a
    let bs ← mapOption f l
    some (b :: bs)

/-- `Shop.create_dict` (`models/shop.py` lines 84-101).  The result is
`none` when a plain-string member of `currencies` makes the Python code
crash on `c.to_dict()`.  `enable_auto_discounts` goes through the
property getter; `gifts`/`promos` fall back to `[]` when falsy. -/
def Shop.create_dict (s : Shop) : Option DVal := do
  let cur ← mapOption
    (fun c => match c with
      | CurrencyItem.cur c => some (Currency.to_dict c)
      | CurrencyItem.str _ => Option.none) s.currencies
  some (DVal.dict [
    ("name", optS s.name), ("company", optS s.company), ("url", optS s.url),
    ("platform", optS s.platform), ("version", optS s.version),
    ("agency", optS s.agency), ("email", optS s.email),
    ("currencies", DVal.list cur),
    ("categories", DVal.list (s.categories.map Category.to_dict)),
    ("delivery_options", DVal.list (s.delivery_options.map Option'.to_dict)),
    ("pickup_options", DVal.list (s.pickup_options.map Option'.to_dict)),
    ("enable_auto_discounts",
      match ead_get s.enable_auto_discounts_raw with
      | some b => DVal.b b
      | Option.none => DVal.none),
    ("offers", DVal.list (s.offers.map Offer.to_dict)),
    ("gifts", DVal.list (s.gifts.map Gift.to_dict)),
    ("promos", DVal.list (s.promos.map Promo.to_dict))])

/-- A scalar child element `<tag>value</tag>`, emitted only when the value
is truthy (`if value:` skips both `None` and the empty string). -/
def optEl (tag : String) (v : Option String) : List XMLElement :=
  match v with
  | some x => if x = "" then [] else [XMLElement.mk tag [] (some x) []]
  | Option.none => []

/-- `Shop.create_xml` (`models/shop.py` lines 103-168): the seven scalar
tags only when truthy; `currencies` (strings silently skipped),
`categories` and `offers` wrappers always; `delivery-options`,
`pickup-options`, `gifts`, `promos` wrappers and the
`enable_auto_discounts` element only when the field is truthy. -/
def Shop.create_xml (s : Shop) : XMLElement :=
  XMLElement.mk "shop" [] Option.none (
    optEl "name" s.name ++ optEl "company" s.company ++ optEl "url" s.url ++
    optEl "platform" s.platform ++ optEl "version" s.version ++
    optEl "agency" s.agency ++ optEl "email" s.email ++
    [XMLElement.mk "currencies" [] Option.none
      (s.currencies.filterMap
        (fun c => match c with
          | CurrencyItem.cur c => some (Currency.to_xml c)
          | CurrencyItem.str _ => Option.none))] ++
    [XMLElement.mk "categories" [] Option.none
      (s.categories.map Category.to_xml)] ++
    (if s.delivery_options = [] then [] else
      [XMLElement.mk "delivery-options" [] Option.none
        (s.delivery_options.map Option'.to_xml)]) ++
    (if s.pickup_options = [] then [] else
      [XMLElement.mk "pickup-options" [] Option.none
        (s.pickup_options.map Option'.to_xml)]) ++
    optEl "enable_auto_discounts" s.enable_auto_discounts_raw ++
    [XMLElement.mk "offers" [] Option.none (s.offers.map Offer.to_xml)] ++
    (if s.gifts = [] then [] else
      [XMLElement.mk "gifts" [] Option.none (s.gifts.map Gift.to_xml)]) ++
    (if s.promos = [] then [] else
      [XMLElement.mk "promos" [] Option.none (s.promos.map Promo.to_xml)]))

/-- The accepted parameter names of `Shop.__init__`
(`inspect.getfullargspec(Shop.__init__).args[1:]`). -/
def shop_args : List String :=
  ["name", "company", "currencies", "categories", "offers", "url",
   "platform", "version", "agency", "email", "delivery_options",
   "pickup_options", "enable_auto_discounts", "gifts", "promos"]

/-- Map a fallible decoder over a list, propagating the first raised
error (the Except-monad traversal, written out structurally). -/
def mapExcept (f : α → Except Err β) : List α → Except Err (List β)
  | [] => Except.ok []
  | a :: l => do
    let b ← f a
    let bs ← mapExcept f l
    Except.ok (b :: bs)

/-- One iteration of the child loop of `Shop.from_xml` (`models/shop.py`
lines 174-234): the four collection wrappers (plus `gifts`/`promos`, whose
keys are only set when non-empty) are recognized by tag; any other child
is stored as a scalar `kwargs[el.tag] = el.text`. -/
def Shop.process_child (kw : Kwargs) (el : XMLElement) : Except Err Kwargs :=
  if el.tag = "currencies" then
    Except.ok (kwInsert kw "currencies"
      (KVal.currencyList (el.children.map Currency.from_xml)))
  else if el.tag = "categories" then
    Except.ok (kwInsert kw "categories"
      (KVal.categoryList (el.children.map Category.from_xml)))
  else if el.tag = "delivery-options" then
    Except.ok (kwInsert kw "delivery_options"
      (KVal.optionList (el.children.map Option'.from_xml)))
  else if el.tag = "pickup-options" then
    Except.ok (kwInsert kw "pickup_options"
      (KVal.optionList (el.children.map Option'.from_xml)))
  else if el.tag = "offers" then do
    let offers ← mapExcept offer_from_xml_elem el.children
    Except.ok (kwInsert kw "offers" (KVal.offerList offers))
  else if el.tag = "gifts" then
    let gifts := el.children.map Gift.from_xml
    Except.ok (if gifts = [] then kw else kwInsert kw "gifts" (KVal.giftList gifts))
  else if el.tag = "promos" then
    let promos := el.children.map Promo.from_xml
    Except.ok (if promos = [] then kw else kwInsert kw "promos" (KVal.promoList promos))
  else
    Except.ok (kwInsert kw el.tag (KVal.scalar el.text))

/-- The kwargs accumulated by the child loop of `Shop.from_xml`. -/
def Shop.raw_kwargs (els : List XMLElement) : Except Err Kwargs :=
  els.foldlM Shop.process_child []

/-- The kwargs actually passed to `Shop(**kwargs)`: `currencies` defaulted
to the empty list when absent, then the key set filtered down to the
constructor's accepted parameter names (`models/shop.py` lines 236-241). -/
def Shop.final_kwargs (els : List XMLElement) : Except Err Kwargs := do
  let kw ← Shop.raw_kwargs els
  let kw := if (kw.lookup "currencies").isSome then kw
            else kwInsert kw "currencies" (KVal.currencyList [])
  Except.ok (kw.filter (fun kv => shop_args.contains kv.1))

/-- Extraction of one required parameter from the kwargs: a missing key
is Python's `TypeError` for a missing required positional argument; a
scalar key yields the raw text. -/
def kwReqScalar (kw : Kwargs) (k : String) : Except Err (Option String) :=
  match kw.lookup k with
  | Option.none =>
    Except.error (Err.typeErr ("missing required argument: " ++ k))
  | some (KVal.scalar v) => Except.ok v
  | some _ => Except.error (Err.typeErr k)

/-- The required `currencies` parameter. -/
def kwReqCurrencies (kw : Kwargs) : Except Err (List Currency) :=
  match kw.lookup "currencies" with
  | Option.none =>
    Except.error (Err.typeErr "missing required argument: currencies")
  | some (KVal.currencyList l) => Except.ok l
  | some _ => Except.error (Err.typeErr "currencies")

/-- The required `categories` parameter. -/
def kwReqCategories (kw : Kwargs) : Except Err (List Category) :=
  match kw.lookup "categories" with
  | Option.none =>
    Except.error (Err.typeErr "missing required argument: categories")
  | some (KVal.categoryList l) => Except.ok l
  | some _ => Except.error (Err.typeErr "categories")

/-- The required `offers` parameter. -/
def kwReqOffers (kw : Kwargs) : Except Err (List Offer) :=
  match kw.lookup "offers" with
  | Option.none =>
    Except.error (Err.typeErr "missing required argument: offers")
  | some (KVal.offerList l) => Except.ok l
  | some _ => Except.error (Err.typeErr "offers")

/-- An optional scalar parameter, defaulting to `None`. -/
def kwOptScalar (kw : Kwargs) (k : String) : Except Err (Option String) :=
  match kw.lookup k with
  | Option.none => Except.ok Option.none
  | some (KVal.scalar v) => Except.ok v
  | some _ => Except.error (Err.typeErr k)

/-- An optional option-list parameter, defaulting to `None` (collapsed to
the empty list, see `Shop`). -/
def kwOptionList (kw : Kwargs) (k : String) : Except Err (List Option') :=
  match kw.lookup k with
  | Option.none => Except.ok []
  | some (KVal.optionList l) => Except.ok l
  | some _ => Except.error (Err.typeErr k)

/-- The optional `enable_auto_discounts` parameter, as handed to the
property setter. -/
def kwEadInput (kw : Kwargs) : Except Err EADInput :=
  match kw.lookup "enable_auto_discounts" with
  | Option.none => Except.ok EADInput.none
  | some (KVal.scalar Option.none) => Except.ok EADInput.none
  | some (KVal.scalar (some v)) => Except.ok (EADInput.str v)
  | some _ => Except.error (Err.typeErr "enable_auto_discounts")

/-- The optional `gifts` parameter. -/
def kwGiftList (kw : Kwargs) : Except Err (List Gift) :=
  match kw.lookup "gifts" with
  | Option.none => Except.ok []
  | some (KVal.giftList l) => Except.ok l
  | some _ => Except.error (Err.typeErr "gifts")

/-- The optional `promos` parameter. -/
def kwPromoList (kw : Kwargs) : Except Err (List Promo) :=
  match kw.lookup "promos" with
  | Option.none => Except.ok []
  | some (KVal.promoList l) => Except.ok l
  | some _ => Except.error (Err.typeErr "promos")

/-- Calling `Shop(**kwargs)`: the five parameters without defaults must be
present (else Python raises `TypeError`); every optional parameter
defaults to `None`.  A key bound to a value of the wrong shape cannot be
produced by the decoders (tags map each key to a fixed shape); it is
modelled as a `TypeError`.  The `enable_auto_discounts` setter runs on
the extracted value, exactly as `Shop.__init__` does. -/
def Shop.of_kwargs (kw : Kwargs) : Except Err Shop := do
  let name ← kwReqScalar kw "name"
  let company ← kwReqScalar kw "company"
  let currencies ← kwReqCurrencies kw
  let categories ← kwReqCategories kw
  let offers ← kwReqOffers kw
  let url ← kwOptScalar kw "url"
  let platform ← kwOptScalar kw "platform"
  let version ← kwOptScalar kw "version"
  let agency ← kwOptScalar kw "agency"
  let email ← kwOptScalar kw "email"
  let delivery_options ← kwOptionList kw "delivery_options"
  let pickup_options ← kwOptionList kw "pickup_options"
  let eadInput ← kwEadInput kw
  let eadRaw ← ead_set eadInput
  let gifts ← kwGiftList kw
  let promos ← kwPromoList kw
  Except.ok {
    name := name, company := company, url := Shop.url_set url,
    platform := platform, version := version, agency := agency,
    email := email, currencies := currencies.map CurrencyItem.cur,
    categories := categories,
    delivery_options := delivery_options, pickup_options := pickup_options,
    enable_auto_discounts_raw := eadRaw, offers := offers,
    gifts := gifts, promos := promos }

/-- `Shop.from_xml` (`models/shop.py` lines 170-243). -/
def Shop.from_xml (shop_el : XMLElement) : Except Err Shop := do
  let kw ← Shop.final_kwargs shop_el.children
  Shop.of_kwargs kw

/-- The inner loop shared by the `currencies` / `categories` /
`delivery-options` / `pickup-options` branches of `Shop.from_iterator`
(`models/shop.py` lines 254-297): consume tokens until the `'end'` event
of the wrapper tag; every other `'end'` event contributes one element
(the branches differ only in which `from_xml` they apply, done by the
caller on the collected elements). -/
def collect_until (wrapTag : String) (toks : List Token) :
    List XMLElement × List Token :=
  match toks with
  | [] => ([], [])
  | (ev, el) :: rest =>
    if ev = Event.closed ∧ el.tag = wrapTag then ([], rest)
    else if ev = Event.closed then
      let p := collect_until wrapTag rest
      (el :: p.1, p.2)
    else collect_until wrapTag rest

theorem collect_until_length (wrapTag : String) (toks : List Token) :
    (collect_until wrapTag toks).2.length ≤ toks.length := by
  induction toks with
  | nil => simp [collect_until]
  | cons t rest ih =>
    rcases t with ⟨ev, el⟩
    unfold collect_until
    split
    · simp
    · split
      · simpa using Nat.le_succ_of_le ih
      · simpa using Nat.le_succ_of_le ih

/-- Modelled from the spec (§4.6): a variant's streaming constructor must
consume exactly the events of its own subtree — everything up to and
including the offer's own `'end'` event, tracked by nesting depth. -/
def consume_subtree (depth : Nat) (toks : List Token) : List Token :=
  match toks with
  | [] => []
  | (ev, _) :: rest =>
    match ev with
    | Event.opened => consume_subtree (depth + 1) rest
    | Event.closed => if depth = 0 then rest else consume_subtree (depth - 1) rest

theorem consume_subtree_length (depth : Nat) (toks : List Token) :
    (consume_subtree depth toks).length ≤ toks.length := by
  induction toks generalizing depth with
  | nil => simp [consume_subtree]
  | cons t rest ih =>
    rcases t with ⟨ev, el⟩
    cases ev
    · simpa [consume_subtree] using Nat.le_succ_of_le (ih (depth + 1))
    · by_cases hd : depth = 0
      · simp [consume_subtree, hd]
      · simpa [consume_subtree, hd] using Nat.le_succ_of_le (ih (depth - 1))

/-- The offers sub-loop of `Shop.from_iterator` (`models/shop.py` lines
299-329): an `'end'` event for `offers` terminates; an `'start'` event for
an `offer` child dispatches on the `type` attribute exactly as the tree
decoder does (same verbatim chain, same `ParseError`), then delegates to
the variant's streaming constructor, which consumes the offer's own
subtree (see `consume_subtree`) and yields the decoded offer. -/
def offers_loop (toks : List Token) (acc : List Offer) :
    Except Err (List Offer) × List Token :=
  match toks with
  | [] => (Except.ok acc, [])
  | (ev, el) :: rest =>
    if ev = Event.closed ∧ el.tag = "offers" then (Except.ok acc, rest)
    else if ev = Event.opened ∧ el.tag = "offer" then
      match offer_dispatch (el.attrs.lookup "type") with
      | Except.error e => (Except.error e, rest)
      | Except.ok kind =>
        offers_loop (consume_subtree 0 rest) (acc ++ [Offer.from_xml kind el])
    else offers_loop rest acc
termination_by toks.length
decreasing_by
  · have := consume_subtree_length 0 rest
    simp
    omega
  · simp

theorem offers_loop_length (toks : List Token) (acc : List Offer) :
    (offers_loop toks acc).2.length ≤ toks.length := by
  induction toks, acc using offers_loop.induct with
  | case1 acc => simp [offers_loop]
  | case2 acc ev el rest hc =>
    rw [offers_loop, if_pos hc]
    simp
  | case3 acc ev el rest hc1 hc2 e hdisp =>
    rw [offers_loop, if_neg hc1, if_pos hc2, hdisp]
    simp
  | case4 acc ev el rest hc1 hc2 kind hdisp ih =>
    rw [offers_loop, if_neg hc1, if_pos hc2, hdisp]
    have h2 := consume_subtree_length 0 rest
    simp only [List.length_cons]
    omega
  | case5 acc ev el rest hc1 hc2 ih =>
    rw [offers_loop, if_neg hc1, if_neg hc2]
    simp only [List.length_cons]
    omega

/-- The gifts/promos sub-loops of `Shop.from_iterator` (`models/shop.py`
lines 330-354) as actually written: `for gift_el in iterator:` binds the
whole (event, element) pair to one variable and the guards test the stale
`event` variable still bound by the outer loop — which is the `'start'`
kind on entry — so the break condition and the append condition never
fire: the loop silently consumes every remaining token and collects
nothing. -/
def broken_collect : List Token → List Token
  | [] => []
  | _ :: rest => broken_collect rest

theorem broken_collect_eq_nil (toks : List Token) : broken_collect toks = [] := by
  induction toks with
  | nil => rfl
  | cons t rest ih => simpa [broken_collect] using ih

/-- The outer loop of `Shop.from_iterator` (`models/shop.py` lines
250-358).  Note two faithful quirks of the source: the `pickup-options`
branch omits the `event == 'start'` check, and the gifts/promos branches
run the broken stale-event sub-loops (which collect nothing, so their
`if gifts:` / `if promos:` guards never set a key). -/
def Shop.iter_go (kw : Kwargs) (toks : List Token) : Except Err Kwargs :=
  match toks with
  | [] => Except.ok kw
  | (ev, el) :: rest =>
    if el.tag = "currencies" ∧ ev = Event.opened then
      let p := collect_until "currencies" rest
      Shop.iter_go
        (kwInsert kw "currencies" (KVal.currencyList (p.1.map Currency.from_xml))) p.2
    else if el.tag = "categories" ∧ ev = Event.opened then
      let p := collect_until "categories" rest
      Shop.iter_go
        (kwInsert kw "categories" (KVal.categoryList (p.1.map Category.from_xml))) p.2
    else if el.tag = "delivery-options" ∧ ev = Event.opened then
      let p := collect_until "delivery-options" rest
      Shop.iter_go
        (kwInsert kw "delivery_options" (KVal.optionList (p.1.map Option'.from_xml))) p.2
    else if el.tag = "pickup-options" then
      let p := collect_until "pickup-options" rest
      Shop.iter_go
        (kwInsert kw "pickup_options" (KVal.optionList (p.1.map Option'.from_xml))) p.2
    else if el.tag = "offers" ∧ ev = Event.opened then
      let p := offers_loop rest []
      match p.1 with
      | Except.error e => Except.error e
      | Except.ok os =>
        Shop.iter_go (kwInsert kw "offers" (KVal.offerList os)) p.2
    else if el.tag = "gifts" ∧ ev = Event.opened then
      Shop.iter_go kw (broken_collect rest)
    else if el.tag = "promos" ∧ ev = Event.opened then
      Shop.iter_go kw (broken_collect rest)
    else if ev = Event.closed then
      Shop.iter_go (kwInsert kw el.tag (KVal.scalar el.text)) rest
    else Shop.iter_go kw rest
termination_by toks.length
decreasing_by
  · have := collect_until_length "currencies" rest
    simp only [List.length_cons]
    omega
  · have := collect_until_length "categories" rest
    simp only [List.length_cons]
    omega
  · have := collect_until_length "delivery-options" rest
    simp only [List.length_cons]
    omega
  · have := collect_until_length "pickup-options" rest
    simp only [List.length_cons]
    omega
  · have := offers_loop_length rest []
    simp only [List.length_cons]
    omega
  · rw [broken_collect_eq_nil]
    simp
  · rw [broken_collect_eq_nil]
    simp
  · simp
  · simp

/-- The kwargs accumulated by the outer loop of `Shop.from_iterator`. -/
def Shop.iter_raw_kwargs (toks : List Token) : Except Err Kwargs :=
  Shop.iter_go [] toks

/-- The kwargs passed to `Shop(**kwargs)` by `Shop.from_iterator`
(`models/shop.py` lines 360-365): the same `currencies` defaulting and
parameter-name filtering as the tree decoder. -/
def Shop.iter_final_kwargs (toks : List Token) : Except Err Kwargs := do
  let kw ← Shop.iter_raw_kwargs toks
  let kw := if (kw.lookup "currencies").isSome then kw
            else kwInsert kw "currencies" (KVal.currencyList [])
  Except.ok (kw.filter (fun kv => shop_args.contains kv.1))

/-- `Shop.from_iterator` (`models/shop.py` lines 245-367), consuming the
token sequence of the shop element's interior (the caller hands the
decoder an iterator already positioned inside the shop element, §4.6). -/
def Shop.from_iterator (toks : List Token) : Except Err Shop := do
  let kw ← Shop.iter_final_kwargs toks
  Shop.of_kwargs kw

/-- The `Feed` model (`models/feed.py`): the owned shop and the stored
`_date` string slot. -/
structure Feed where
  shop : Shop
  date_raw : String
deriving DecidableEq, Repr

/-- The `Feed.date` setter (`models/feed.py` lines 34-42), whose
validation helper `_is_valid_datetime` lives in the absent `abstract`
module and is modelled from the spec (§4.1 `datetime_with_fallback`,
§3 Feed invariant): parse with the primary format, retry with the
fallback format, normalize the stored value to the primary format; when
no value is supplied (or neither format parses, the field being
optional-with-default), store the current time. -/
def feed_date_set (value : Option String) (now : DateTime) : String :=
  match value with
  | Option.none => format_primary now
  | some s =>
    match parse_primary s with
    | some d => format_primary d
    | Option.none =>
      match parse_fallback s with
      | some d => format_primary d
      | Option.none => format_primary now

/-- `Feed.__init__` (`models/feed.py` lines 18-20): stores the shop and
runs the date setter.  `now` is the ambient current time consulted when
no date is supplied. -/
def Feed.init (shop : Shop) (date : Option String) (now : DateTime) : Feed :=
  ⟨shop, feed_date_set date now⟩

/-- The `Feed.date` property getter (`models/feed.py` lines 22-32):
re-parse the stored string with the primary format, falling back to the
alternate format; `none` models the exception raised when both fail
(unreachable for feeds built through the constructor). -/
def feed_date_get (f : Feed) : Option DateTime :=
  match parse_primary f.date_raw with
  | some d => some d
  | Option.none => parse_fallback f.date_raw

/-- `Feed.create_dict` (`models/feed.py` lines 44-48): the shop's dict and
the *parsed* date (the `date` property getter returns a datetime value,
not the stored string). -/
def Feed.create_dict (f : Feed) : Option DVal := do
  let sd ← Shop.create_dict f.shop
  let d ← feed_date_get f
  some (DVal.dict [("shop", sd),
    ("date", DVal.dt d.year d.month d.day d.hour d.minute d.second)])

/-- `Feed.create_xml` (`models/feed.py` lines 50-53): the fixed
`yml_catalog` tag, the stored raw `_date` string as the sole attribute,
the shop subtree as the only child. -/
def Feed.create_xml (f : Feed) : XMLElement :=
  XMLElement.mk "yml_catalog" [("date", f.date_raw)] Option.none
    [Shop.create_xml f.shop]

/-- `Feed.from_xml` (`models/feed.py` lines 55-59): decode `el[0]` as the
shop (an element with no children raises) and re-run the date setter on
the `date` attribute. -/
def Feed.from_xml (el : XMLElement) (now : DateTime) : Except Err Feed :=
  match el.children with
  | [] => Except.error (Err.typeErr "yml_catalog element has no children")
  | shop_el :: _ => do
    let shop ← Shop.from_xml shop_el
    Except.ok (Feed.init shop (el.attrs.lookup "date") now)

theorem feed_date_set_normalized (value : Option String) (now : DateTime)
    (hnow : ValidDT now) :
    ∃ d, ValidDT d ∧ feed_date_set value now = format_primary d := by
  rcases value with _ | s
  · exact ⟨now, hnow, rfl⟩
  · rcases hp : parse_primary s with _ | d
    · rcases hf : parse_fallback s with _ | d
      · exact ⟨now, hnow, by simp only [feed_date_set, hp, hf]⟩
      · exact ⟨d, parse_fallback_valid hf, by simp only [feed_date_set, hp, hf]⟩
    · exact ⟨d, parse_primary_valid hp, by simp only [feed_date_set, hp]⟩

theorem feed_date_set_format_primary (d : DateTime) (h : ValidDT d)
    (now : DateTime) :
    feed_date_set (some (format_primary d)) now = format_primary d := by
  simp only [feed_date_set, parse_primary_format d h]

theorem find?_append_none (p : XMLElement → Bool) (l1 l2 : List XMLElement)
    (h : ∀ x ∈ l1, p x = false) :
    List.find? p (l1 ++ l2) = List.find? p l2 := by
  induction l1 with
  | nil => simp
  | cons a l ih =>
    rw [List.cons_append, List.find?_cons]
    rw [h a (List.mem_cons_self a l)]
    exact ih (fun x hx => h x (List.mem_cons_of_mem a hx))

theorem optEl_mem_tag {t : String} {v : Option String} {x : XMLElement}
    (hx : x ∈ optEl t v) : x.tag = t := by
  rcases v with _ | s
  · simp [optEl] at hx
  · by_cases h : s = ""
    · simp [optEl, h] at hx
    · simp [optEl, h] at hx
      rw [hx]
      rfl

theorem mem_optEl_iff {x : XMLElement} {t : String} {v : Option String} :
    x ∈ optEl t v ↔
      (∃ s, v = some s ∧ ¬s = "" ∧ x = XMLElement.mk t [] (some s) []) := by
  rcases v with _ | s
  · simp [optEl]
  · by_cases h : s = "" <;> simp [optEl, h]

theorem mem_map_tag_optEl (a t : String) (v : Option String) :
    a ∈ (optEl t v).map XMLElement.tag ↔
      (a = t ∧ ∃ x, v = some x ∧ ¬x = "") := by
  rcases v with _ | x
  · simp [optEl]
  · by_cases hx : x = ""
    · simp [optEl, hx]
    · simp only [optEl, if_neg hx, List.map_cons, List.map_nil,
        List.mem_singleton, XMLElement.tag, Option.some.injEq]
      constructor
      · intro h
        exact ⟨h, x, rfl, hx⟩
      · intro h
        exact h.1

theorem parse_fallback_format (d : DateTime) (h : ValidDT d)
    (hs : d.second = 0) :
    parse_fallback (format_fallback d) = some d := by
  obtain ⟨h1, h2, h3, h4, h5, h6, h7, h8⟩ := h
  unfold parse_fallback format_fallback pad4 pad2
  simp only [String.data]
  simp only [List.cons_append, List.nil_append]
  simp only [digits4, digits2, digit?_digitChar, Option.bind_eq_bind,
    Option.some_bind, bind, pure]
  have hy : 1000 * (d.year / 1000 % 10) + 100 * (d.year / 100 % 10) +
      10 * (d.year / 10 % 10) + d.year % 10 = d.year := by omega
  have hmo : 10 * (d.month / 10 % 10) + d.month % 10 = d.month := by omega
  have hda : 10 * (d.day / 10 % 10) + d.day % 10 = d.day := by omega
  have hh : 10 * (d.hour / 10 % 10) + d.hour % 10 = d.hour := by omega
  have hmi : 10 * (d.minute / 10 % 10) + d.minute % 10 = d.minute := by omega
  have hval : ValidDT (⟨d.year, d.month, d.day, d.hour, d.minute, 0⟩ : DateTime) :=
    ⟨h1, h2, h3, h4, h5, h6, h7, Nat.zero_le 59⟩
  simp [hy, hmo, hda, hh, hmi, hval]
  rw [← hs]

/-- A minimal shop value used to instantiate theorems with hypotheses at
concrete inputs. -/
def sample_shop : Shop :=
  { name := some "shop", company := some "company", url := Option.none,
    platform := Option.none, version := Option.none, agency := Option.none,
    email := Option.none, currencies := [], categories := [],
    delivery_options := [], pickup_options := [],
    enable_auto_discounts_raw := Option.none, offers := [], gifts := [],
    promos := [] }

deriving instance DecidableEq for Except

/-- A 513-character string. -/
def url513 : String := String.mk (List.replicate 513 'a')

/-- A 512-character string. -/
def url512 : String := String.mk (List.replicate 512 'a')

set_option maxRecDepth 8192 in
/-- C5: the claim says a 513-character url raises the length-violation
`ValidationError` and a 512-character url is stored unchanged.  The url
property setter as written in `models/shop.py` (embedded as
`Shop.url_set`) performs no validation at all and stores the
513-character value unchanged, while the setter demanded by the spec and
by the repository's own test `test_url_validation_error` (embedded as
`url_set_spec`) rejects it; the 512-character value is accepted by both. -/
theorem C5_url_setter_unvalidated :
    url513.length = 513 ∧ Shop.url_set (some url513) = some url513 ∧
    url_set_spec (some url513) =
      Except.error (Err.validation "The maximum url length is 512 characters.") ∧
    url512.length = 512 ∧ Shop.url_set (some url512) = some url512 ∧
    url_set_spec (some url512) = Except.ok (some url512) := by
  refine ⟨by decide, rfl, by decide, by decide, rfl, by decide⟩

/-- C7: assigning `"yes"`/`"true"`/`"1"` to `enable_auto_discounts`
normalizes the stored token so the property reads back `true`;
`"no"`/`"false"`/`"0"` read back `false`; `None` stays `None`; any token
outside `ENABLE_AUTO_DISCOUNTS_CHOICES` raises the enum-violation
`EnableAutoDiscountsValidationError` listing the allowed tokens. -/
theorem C7_enable_auto_discounts (s : String)
    (h : s ∉ ENABLE_AUTO_DISCOUNTS_CHOICES) :
    (∀ v ∈ (["yes", "true", "1"] : List String),
      ead_set (EADInput.str v) = Except.ok (some "true") ∧
        ead_get (some "true") = some true) ∧
    (∀ v ∈ (["no", "false", "0"] : List String),
      ead_set (EADInput.str v) = Except.ok (some "false") ∧
        ead_get (some "false") = some false) ∧
    ead_set EADInput.none = Except.ok Option.none ∧
    ead_get Option.none = Option.none ∧
    ead_set (EADInput.str s) = Except.error (Err.validation eadErrorMsg) := by
  refine ⟨by decide, by decide, by decide, by decide, ?_⟩
  simp only [ENABLE_AUTO_DISCOUNTS_CHOICES, List.mem_cons,
    List.not_mem_nil, or_false, not_or] at h
  obtain ⟨h1, h2, h3, h4, h5, h6⟩ := h
  simp [ead_set, h1, h2, h3, h4, h5, h6]

theorem C7_enable_auto_discounts_witness :
    "err" ∉ ENABLE_AUTO_DISCOUNTS_CHOICES ∧
      ead_set (EADInput.str "err") = Except.error (Err.validation eadErrorMsg) :=
  ⟨by decide, (C7_enable_auto_discounts "err" (by decide)).2.2.2.2⟩

/-- C6: a Feed date supplied as a string in the fallback format
`"%Y-%m-%d %H:%M"` is stored normalized to the primary format
`"%Y-%m-%d %H:%M:%S"`, the `date` attribute emitted by `Feed.create_xml`
is that normalized primary-format string, and the stored string is not in
the fallback format (the fallback parser rejects it, and it differs from
the fallback rendering). -/
theorem C6_fallback_date_normalized (sh : Shop) (y mo da hr mi : Nat)
    (now : DateTime) (hv : ValidDT ⟨y, mo, da, hr, mi, 0⟩) :
    (Feed.init sh (some (format_fallback ⟨y, mo, da, hr, mi, 0⟩)) now).date_raw
        = format_primary ⟨y, mo, da, hr, mi, 0⟩ ∧
    (Feed.create_xml
        (Feed.init sh (some (format_fallback ⟨y, mo, da, hr, mi, 0⟩)) now)).attrs.lookup "date"
        = some (format_primary ⟨y, mo, da, hr, mi, 0⟩) ∧
    parse_fallback (format_primary ⟨y, mo, da, hr, mi, 0⟩) = Option.none ∧
    format_primary ⟨y, mo, da, hr, mi, 0⟩ ≠ format_fallback ⟨y, mo, da, hr, mi, 0⟩ := by
  have hstore : (Feed.init sh (some (format_fallback ⟨y, mo, da, hr, mi, 0⟩)) now).date_raw
      = format_primary ⟨y, mo, da, hr, mi, 0⟩ := by
    simp only [Feed.init, feed_date_set, parse_primary_format_fallback,
      parse_fallback_format _ hv rfl]
  refine ⟨hstore, ?_, parse_fallback_format_primary _, ?_⟩
  · simp only [Feed.create_xml, XMLElement.attrs, List.lookup]
    rw [hstore]
    rfl
  · intro hc
    have hlen := congrArg (fun t => t.data.length) hc
    simp [format_primary, format_fallback, pad4, pad2] at hlen

theorem C6_fallback_date_normalized_witness :
    ValidDT ⟨2020, 1, 2, 3, 4, 0⟩ ∧
      (Feed.init sample_shop (some (format_fallback ⟨2020, 1, 2, 3, 4, 0⟩))
          ⟨2021, 5, 6, 7, 8, 9⟩).date_raw = format_primary ⟨2020, 1, 2, 3, 4, 0⟩ :=
  ⟨by decide,
    (C6_fallback_date_normalized sample_shop 2020 1 2 3 4 ⟨2021, 5, 6, 7, 8, 9⟩
      (by decide)).1⟩

theorem optEl_find_skip (t q : String) (v : Option String)
    (l2 : List XMLElement) (h : (t == q) = false) :
    List.find? (fun el => el.tag == q) (optEl t v ++ l2) =
      List.find? (fun el => el.tag == q) l2 :=
  find?_append_none _ _ _ (fun x hx => by rw [optEl_mem_tag hx]; exact h)

/-- C9: for every Shop — in particular one whose `currencies` list holds
plain strings — `Shop.create_xml` succeeds (it is a total function) and
the `currencies` wrapper it emits contains exactly the encodings of the
non-string members, each string member silently skipped by the
`isinstance(c, str)` test. -/
theorem C9_create_xml_skips_string_currencies (s : Shop) :
    (Shop.create_xml s).children.find? (fun el => el.tag == "currencies") =
      some (XMLElement.mk "currencies" [] Option.none
        (s.currencies.filterMap (fun c => match c with
          | CurrencyItem.cur c => some (Currency.to_xml c)
          | CurrencyItem.str _ => Option.none))) := by
  unfold Shop.create_xml
  rw [XMLElement.children]
  simp only [List.append_assoc]
  rw [optEl_find_skip "name" _ _ _ (by decide),
    optEl_find_skip "company" _ _ _ (by decide),
    optEl_find_skip "url" _ _ _ (by decide),
    optEl_find_skip "platform" _ _ _ (by decide),
    optEl_find_skip "version" _ _ _ (by decide),
    optEl_find_skip "agency" _ _ _ (by decide),
    optEl_find_skip "email" _ _ _ (by decide)]
  simp [List.find?, XMLElement.tag]

set_option maxHeartbeats 1600000 in
/-- C4: the encoded shop element always contains the `currencies`,
`categories` and `offers` wrapper children, even when the lists are
empty, while each of the `delivery-options`, `pickup-options`, `gifts`
and `promos` wrappers is present exactly when the corresponding
collection is non-empty. -/
theorem C4_wrapper_presence (s : Shop) :
    ("currencies" ∈ (Shop.create_xml s).children.map XMLElement.tag) ∧
    ("categories" ∈ (Shop.create_xml s).children.map XMLElement.tag) ∧
    ("offers" ∈ (Shop.create_xml s).children.map XMLElement.tag) ∧
    ("delivery-options" ∈ (Shop.create_xml s).children.map XMLElement.tag ↔
      s.delivery_options ≠ []) ∧
    ("pickup-options" ∈ (Shop.create_xml s).children.map XMLElement.tag ↔
      s.pickup_options ≠ []) ∧
    ("gifts" ∈ (Shop.create_xml s).children.map XMLElement.tag ↔
      s.gifts ≠ []) ∧
    ("promos" ∈ (Shop.create_xml s).children.map XMLElement.tag ↔
      s.promos ≠ []) := by
  rw [Shop.create_xml, XMLElement.children]
  by_cases h1 : s.delivery_options = [] <;>
    by_cases h2 : s.pickup_options = [] <;>
      by_cases h3 : s.gifts = [] <;>
        by_cases h4 : s.promos = [] <;>
          simp [List.map_append, h1, h2, h3, h4, mem_map_tag_optEl,
            -List.mem_map]

theorem mapOption_currency_dict (l : List CurrencyItem)
    (h : ∀ c ∈ l, ∃ cu, c = CurrencyItem.cur cu) :
    ∃ r, mapOption (fun c => match c with
      | CurrencyItem.cur c => some (Currency.to_dict c)
      | CurrencyItem.str _ => Option.none) l = some r := by
  induction l with
  | nil => exact ⟨[], rfl⟩
  | cons c l ih =>
    obtain ⟨cu, rfl⟩ := h c (List.mem_cons_self c l)
    obtain ⟨r, hr⟩ := ih (fun x hx => h x (List.mem_cons_of_mem _ hx))
    exact ⟨Currency.to_dict cu :: r, by simp [mapOption, hr]⟩

theorem shop_create_dict_ok (s : Shop)
    (h : ∀ c ∈ s.currencies, ∃ cu, c = CurrencyItem.cur cu) :
    ∃ sd, Shop.create_dict s = some sd := by
  obtain ⟨r, hr⟩ := mapOption_currency_dict s.currencies h
  simp only [Shop.create_dict, hr, Option.bind_eq_bind, Option.some_bind]
  exact ⟨_, rfl⟩

/-- C10: for a validly constructed Feed, the `date` entry of
`Feed.create_dict` is the datetime value obtained by re-parsing the
stored date string through the `date` property getter, while
`Feed.create_xml` emits the stored raw string itself as the `date`
attribute — a parsed datetime on the dict side versus the raw string on
the XML side. -/
theorem C10_dict_date_parsed_xml_date_raw (sh : Shop) (di : Option String)
    (now : DateTime) (hnow : ValidDT now)
    (hcur : ∀ c ∈ sh.currencies, ∃ cu, c = CurrencyItem.cur cu) :
    ∃ d sd,
      parse_primary (Feed.init sh di now).date_raw = some d ∧
      feed_date_get (Feed.init sh di now) = some d ∧
      Shop.create_dict sh = some sd ∧
      Feed.create_dict (Feed.init sh di now) =
        some (DVal.dict [("shop", sd),
          ("date", DVal.dt d.year d.month d.day d.hour d.minute d.second)]) ∧
      (Feed.create_xml (Feed.init sh di now)).attrs.lookup "date" =
        some (Feed.init sh di now).date_raw ∧
      DVal.dt d.year d.month d.day d.hour d.minute d.second ≠
        DVal.s (Feed.init sh di now).date_raw := by
  obtain ⟨d, hd, hset⟩ := feed_date_set_normalized di now hnow
  obtain ⟨sd, hsd⟩ := shop_create_dict_ok sh hcur
  have hraw : (Feed.init sh di now).date_raw = format_primary d := hset
  have hparse : parse_primary (Feed.init sh di now).date_raw = some d := by
    rw [hraw, parse_primary_format d hd]
  have hget : feed_date_get (Feed.init sh di now) = some d := by
    simp only [feed_date_get, hparse]
  refine ⟨d, sd, hparse, hget, hsd, ?_, rfl, by simp⟩
  simp only [Feed.create_dict, show (Feed.init sh di now).shop = sh from rfl,
    hsd, hget, Option.bind_eq_bind, Option.some_bind]

theorem C10_dict_date_parsed_xml_date_raw_witness :
    ValidDT ⟨2025, 1, 2, 3, 4, 5⟩ ∧
    (∀ c ∈ sample_shop.currencies, ∃ cu, c = CurrencyItem.cur cu) ∧
    ∃ d sd,
      parse_primary (Feed.init sample_shop Option.none ⟨2025, 1, 2, 3, 4, 5⟩).date_raw = some d ∧
      feed_date_get (Feed.init sample_shop Option.none ⟨2025, 1, 2, 3, 4, 5⟩) = some d ∧
      Shop.create_dict sample_shop = some sd ∧
      Feed.create_dict (Feed.init sample_shop Option.none ⟨2025, 1, 2, 3, 4, 5⟩) =
        some (DVal.dict [("shop", sd),
          ("date", DVal.dt d.year d.month d.day d.hour d.minute d.second)]) ∧
      (Feed.create_xml (Feed.init sample_shop Option.none ⟨2025, 1, 2, 3, 4, 5⟩)).attrs.lookup "date" =
        some (Feed.init sample_shop Option.none ⟨2025, 1, 2, 3, 4, 5⟩).date_raw ∧
      DVal.dt d.year d.month d.day d.hour d.minute d.second ≠
        DVal.s (Feed.init sample_shop Option.none ⟨2025, 1, 2, 3, 4, 5⟩).date_raw :=
  ⟨by decide, by simp [sample_shop],
    C10_dict_date_parsed_xml_date_raw sample_shop Option.none ⟨2025, 1, 2, 3, 4, 5⟩
      (by decide) (by simp [sample_shop])⟩

/-- A valid shop document containing an (empty) `gifts` wrapper followed
by a scalar `email` child. -/
def c2_doc : XMLElement :=
  XMLElement.mk "shop" [] Option.none
    [XMLElement.mk "name" [] (some "Shop1") [],
     XMLElement.mk "company" [] (some "Co") [],
     XMLElement.mk "currencies" [] Option.none [],
     XMLElement.mk "categories" [] Option.none [],
     XMLElement.mk "offers" [] Option.none [],
     XMLElement.mk "gifts" [] Option.none [],
     XMLElement.mk "email" [] (some "mail@example.com") []]

/-- What tree decoding yields on `c2_doc`. -/
def c2_tree_shop : Shop :=
  { name := some "Shop1", company := some "Co", url := Option.none,
    platform := Option.none, version := Option.none, agency := Option.none,
    email := some "mail@example.com", currencies := [], categories := [],
    delivery_options := [], pickup_options := [],
    enable_auto_discounts_raw := Option.none, offers := [], gifts := [],
    promos := [] }

/-- What streaming decoding yields on the token sequence of `c2_doc`:
the broken gifts sub-loop swallows the `email` tokens. -/
def c2_stream_shop : Shop :=
  { name := some "Shop1", company := some "Co", url := Option.none,
    platform := Option.none, version := Option.none, agency := Option.none,
    email := Option.none, currencies := [], categories := [],
    delivery_options := [], pickup_options := [],
    enable_auto_discounts_raw := Option.none, offers := [], gifts := [],
    promos := [] }

/-- C2: tree-decoding and streaming-decoding of the same valid shop
document do NOT always agree: on `c2_doc` (a document with a `gifts`
wrapper followed by an `email` child) the tree decoder keeps the email
while the streaming decoder's broken gifts sub-loop consumes the rest of
the token stream, so the resulting Shops — and their dict
representations — differ. -/
theorem C2_stream_tree_divergence :
    Shop.from_xml c2_doc = Except.ok c2_tree_shop ∧
    Shop.from_iterator (eventsOfList c2_doc.children) = Except.ok c2_stream_shop ∧
    c2_tree_shop.email = some "mail@example.com" ∧
    c2_stream_shop.email = Option.none ∧
    c2_tree_shop ≠ c2_stream_shop ∧
    Shop.create_dict c2_tree_shop ≠ Shop.create_dict c2_stream_shop := by
  refine ⟨by decide, ?_, rfl, rfl, by decide, ?_⟩
  · simp [Shop.from_iterator, Shop.iter_final_kwargs, Shop.iter_raw_kwargs,
      Shop.iter_go, collect_until, broken_collect, offers_loop, kwInsert,
      Shop.of_kwargs, kwReqScalar, kwReqCurrencies, kwReqCategories,
      kwReqOffers, kwOptScalar, kwOptionList, kwEadInput, kwGiftList,
      kwPromoList, ead_set, Shop.url_set, eventsOfList, eventsOf, c2_doc,
      c2_stream_shop, shop_args, List.lookup, List.filter, Bind.bind,
      Except.bind, pure, Except.pure]
  · intro hEq
    exact absurd (congrArg (fun x => match x with
      | some (DVal.dict l) =>
        (match l.lookup "email" with
         | some (DVal.s v) => v
         | _ => "")
      | _ => "") hEq) (by decide)

/-- The seven known `type` discriminant strings. -/
def known_discriminants : List String :=
  ["vendor.model", "book", "audiobook", "artist.title", "medicine",
   "event-ticket", "alco"]

/-- An offer element carrying the given `type` attribute (absent when
`none`). -/
def offer_el_of_type (t : Option String) : XMLElement :=
  XMLElement.mk "offer"
    ((match t with | some v => [("type", v)] | Option.none => []) ++
      [("id", "1")]) Option.none []

/-- A minimal valid shop document whose `offers` wrapper holds one offer
with the given `type` attribute. -/
def shop_doc_with_offer (t : Option String) : XMLElement :=
  XMLElement.mk "shop" [] Option.none
    [XMLElement.mk "name" [] (some "s") [],
     XMLElement.mk "company" [] (some "c") [],
     XMLElement.mk "currencies" [] Option.none [],
     XMLElement.mk "categories" [] Option.none [],
     XMLElement.mk "offers" [] Option.none [offer_el_of_type t]]

/-- The shop both decoders produce on `shop_doc_with_offer` for a known
kind. -/
def c3_shop (k : OfferKind) : Shop :=
  { name := some "s", company := some "c", url := Option.none,
    platform := Option.none, version := Option.none, agency := Option.none,
    email := Option.none, currencies := [], categories := [],
    delivery_options := [], pickup_options := [],
    enable_auto_discounts_raw := Option.none,
    offers := [⟨k, "1", Option.none, []⟩], gifts := [], promos := [] }

/-- C3: in both `Shop.from_xml` and `Shop.from_iterator`, an offer
element with no `type` attribute decodes to the simplified kind, each of
the seven known discriminant strings selects its variant, and a present
but unrecognized `type` value raises `ParseError` carrying that value
instead of falling back to the simplified kind. -/
theorem C3_offer_type_dispatch (t : String) (h : t ∉ known_discriminants) :
    offer_dispatch Option.none = Except.ok OfferKind.simplified ∧
    offer_dispatch (some "vendor.model") = Except.ok OfferKind.arbitrary ∧
    offer_dispatch (some "book") = Except.ok OfferKind.book ∧
    offer_dispatch (some "audiobook") = Except.ok OfferKind.audiobook ∧
    offer_dispatch (some "artist.title") = Except.ok OfferKind.musicVideo ∧
    offer_dispatch (some "medicine") = Except.ok OfferKind.medicine ∧
    offer_dispatch (some "event-ticket") = Except.ok OfferKind.eventTicket ∧
    offer_dispatch (some "alco") = Except.ok OfferKind.alcohol ∧
    offer_dispatch (some t) =
      Except.error (Err.parse ("Got unexpected offer type: " ++ t)) ∧
    (∀ k : OfferKind,
      Shop.from_xml (shop_doc_with_offer k.discriminant) =
        Except.ok (c3_shop k) ∧ (c3_shop k).offers.map Offer.kind = [k]) ∧
    (∀ k : OfferKind,
      Shop.from_iterator
          (eventsOfList (shop_doc_with_offer k.discriminant).children) =
        Except.ok (c3_shop k) ∧ (c3_shop k).offers.map Offer.kind = [k]) ∧
    Shop.from_xml (shop_doc_with_offer (some t)) =
      Except.error (Err.parse ("Got unexpected offer type: " ++ t)) ∧
    Shop.from_iterator
        (eventsOfList (shop_doc_with_offer (some t)).children) =
      Except.error (Err.parse ("Got unexpected offer type: " ++ t)) := by
  simp only [known_discriminants, List.mem_cons, List.not_mem_nil, or_false,
    not_or] at h
  obtain ⟨h1, h2, h3, h4, h5, h6, h7⟩ := h
  refine ⟨by decide, by decide, by decide, by decide, by decide, by decide,
    by decide, by decide, ?_, ?_, ?_, ?_, ?_⟩
  · simp [offer_dispatch, h1, h2, h3, h4, h5, h6, h7]
  · intro k
    cases k <;> exact ⟨rfl, rfl⟩
  · intro k
    refine ⟨?_, by cases k <;> rfl⟩
    cases k <;>
      simp [Shop.from_iterator, Shop.iter_final_kwargs, Shop.iter_raw_kwargs,
        Shop.iter_go, collect_until, broken_collect, offers_loop, kwInsert,
        Shop.of_kwargs, kwReqScalar, kwReqCurrencies, kwReqCategories,
        kwReqOffers, kwOptScalar, kwOptionList, kwEadInput, kwGiftList,
        kwPromoList, ead_set, Shop.url_set, eventsOfList, eventsOf,
        shop_doc_with_offer, offer_el_of_type, offer_dispatch, Offer.from_xml,
        consume_subtree, fieldsOf, OfferKind.discriminant, c3_shop, shop_args,
        List.lookup, List.filter, Bind.bind, Except.bind, pure, Except.pure]
  · simp [Shop.from_xml, Shop.final_kwargs, Shop.raw_kwargs,
      Shop.process_child, mapExcept, offer_from_xml_elem, offer_dispatch,
      h1, h2, h3, h4, h5, h6, h7, shop_doc_with_offer, offer_el_of_type,
      kwInsert, List.lookup, List.foldlM, Bind.bind, Except.bind, pure,
      Except.pure]
  · simp [Shop.from_iterator, Shop.iter_final_kwargs, Shop.iter_raw_kwargs,
      Shop.iter_go, collect_until, broken_collect, offers_loop, kwInsert,
      Shop.of_kwargs, kwReqScalar, kwReqCurrencies, kwReqCategories,
      kwReqOffers, kwOptScalar, kwOptionList, kwEadInput, kwGiftList,
      kwPromoList, ead_set, Shop.url_set, eventsOfList, eventsOf,
      shop_doc_with_offer, offer_el_of_type, offer_dispatch,
      h1, h2, h3, h4, h5, h6, h7, consume_subtree, shop_args,
      List.lookup, List.filter, Bind.bind, Except.bind, pure, Except.pure]

theorem C3_offer_type_dispatch_witness :
    "bogus" ∉ known_discriminants ∧
      offer_dispatch (some "bogus") =
        Except.error (Err.parse ("Got unexpected offer type: " ++ "bogus")) ∧
      Shop.from_xml (shop_doc_with_offer (some "bogus")) =
        Except.error (Err.parse ("Got unexpected offer type: " ++ "bogus")) :=
  ⟨by decide,
    (C3_offer_type_dispatch "bogus" (by decide)).2.2.2.2.2.2.2.2.1,
    (C3_offer_type_dispatch "bogus" (by decide)).2.2.2.2.2.2.2.2.2.2.2.1⟩

theorem filter_keys_mem_args (kw : Kwargs) :
    ∀ k ∈ (kw.filter (fun kv => shop_args.contains kv.1)).map Prod.fst,
      k ∈ shop_args := by
  intro k hk
  simp only [List.mem_map] at hk
  obtain ⟨⟨k', v⟩, hmem, rfl⟩ := hk
  have := List.of_mem_filter hmem
  simpa using this

theorem lookup_filter_not_args (kw : Kwargs) (k : String)
    (h : k ∉ shop_args) :
    (kw.filter (fun kv => shop_args.contains kv.1)).lookup k = Option.none := by
  induction kw with
  | nil => rfl
  | cons kv tail ih =>
    obtain ⟨k', v'⟩ := kv
    rw [List.filter_cons]
    by_cases hp : k' ∈ shop_args
    · have hbeq : (k == k') = false := by
        simp only [beq_eq_false_iff_ne, ne_eq]
        intro he
        exact h (he ▸ hp)
      rw [if_pos (by simpa using hp)]
      simp only [List.lookup, hbeq]
      exact ih
    · rw [if_neg (by simpa using hp)]
      exact ih

theorem lookup_filter_args (kw : Kwargs) (k : String)
    (h : k ∈ shop_args) :
    (kw.filter (fun kv => shop_args.contains kv.1)).lookup k = kw.lookup k := by
  induction kw with
  | nil => rfl
  | cons kv tail ih =>
    obtain ⟨k', v'⟩ := kv
    rw [List.filter_cons]
    by_cases hk : k = k'
    · subst hk
      rw [if_pos (by simpa using h)]
      simp [List.lookup]
    · have hbeq : (k == k') = false := by simpa using hk
      by_cases hp : k' ∈ shop_args
      · rw [if_pos (by simpa using hp)]
        simp only [List.lookup, hbeq]
        exact ih
      · rw [if_neg (by simpa using hp)]
        rw [ih]
        simp only [List.lookup, hbeq]

theorem kwInsert_of_lookup_none (kw : Kwargs) (k : String) (v : KVal)
    (h : kw.lookup k = Option.none) :
    kwInsert kw k v = kw ++ [(k, v)] := by
  simp [kwInsert, h]

theorem lookup_append_right_none (kw kw2 : Kwargs) (k : String)
    (h : kw.lookup k = Option.none) :
    (kw ++ kw2).lookup k = kw2.lookup k := by
  induction kw with
  | nil => rfl
  | cons kv tail ih =>
    obtain ⟨k', v'⟩ := kv
    by_cases hk : k = k'
    · simp [List.lookup, hk] at h
    · rw [List.cons_append]
      simp only [List.lookup,
        show (k == k') = false by simpa using hk] at h ⊢
      exact ih h

/-- C8: both decoders pass to `Shop(**kwargs)` only keys that are names
of the constructor's parameters — any key collected from a foreign child
tag is silently dropped by the final filter — and when no `currencies`
wrapper was seen the final kwargs carry an empty `currencies` list. -/
theorem C8_kwargs_filtered (els : List XMLElement) (toks : List Token) :
    (∀ kw, Shop.final_kwargs els = Except.ok kw →
      ((∀ k ∈ kw.map Prod.fst, k ∈ shop_args) ∧
       (∀ k, k ∉ shop_args → kw.lookup k = Option.none))) ∧
    (∀ kwRaw kw, Shop.raw_kwargs els = Except.ok kwRaw →
      kwRaw.lookup "currencies" = Option.none →
      Shop.final_kwargs els = Except.ok kw →
      kw.lookup "currencies" = some (KVal.currencyList [])) ∧
    (∀ kw, Shop.iter_final_kwargs toks = Except.ok kw →
      ((∀ k ∈ kw.map Prod.fst, k ∈ shop_args) ∧
       (∀ k, k ∉ shop_args → kw.lookup k = Option.none))) ∧
    (∀ kwRaw kw, Shop.iter_raw_kwargs toks = Except.ok kwRaw →
      kwRaw.lookup "currencies" = Option.none →
      Shop.iter_final_kwargs toks = Except.ok kw →
      kw.lookup "currencies" = some (KVal.currencyList [])) := by
  refine ⟨?_, ?_, ?_, ?_⟩
  · intro kw hkw
    rcases hraw : Shop.raw_kwargs els with e | kwR
    · rw [Shop.final_kwargs, hraw] at hkw
      exact absurd hkw (by simp [Bind.bind, Except.bind])
    · rw [Shop.final_kwargs, hraw] at hkw
      simp only [Bind.bind, Except.bind, Except.ok.injEq] at hkw
      rw [← hkw]
      exact ⟨filter_keys_mem_args _, fun k hk => lookup_filter_not_args _ k hk⟩
  · intro kwRaw kw hraw hcur hkw
    rw [Shop.final_kwargs, hraw] at hkw
    simp only [Bind.bind, Except.bind, hcur, Option.isSome_none,
      Bool.false_eq_true, if_false, Except.ok.injEq] at hkw
    rw [← hkw, kwInsert_of_lookup_none _ _ _ hcur,
      lookup_filter_args _ _ (by decide),
      lookup_append_right_none _ _ _ hcur]
    rfl
  · intro kw hkw
    rcases hraw : Shop.iter_raw_kwargs toks with e | kwR
    · rw [Shop.iter_final_kwargs, hraw] at hkw
      exact absurd hkw (by simp [Bind.bind, Except.bind])
    · rw [Shop.iter_final_kwargs, hraw] at hkw
      simp only [Bind.bind, Except.bind, Except.ok.injEq] at hkw
      rw [← hkw]
      exact ⟨filter_keys_mem_args _, fun k hk => lookup_filter_not_args _ k hk⟩
  · intro kwRaw kw hraw hcur hkw
    rw [Shop.iter_final_kwargs, hraw] at hkw
    simp only [Bind.bind, Except.bind, hcur, Option.isSome_none,
      Bool.false_eq_true, if_false, Except.ok.injEq] at hkw
    rw [← hkw, kwInsert_of_lookup_none _ _ _ hcur,
      lookup_filter_args _ _ (by decide),
      lookup_append_right_none _ _ _ hcur]
    rfl

/-- The children of a tiny shop document with one recognized scalar, a
foreign child, and no `currencies` wrapper. -/
def c8_doc_children : List XMLElement :=
  [XMLElement.mk "name" [] (some "n") [],
   XMLElement.mk "foreign" [] (some "x") []]

theorem C8_kwargs_filtered_witness :
    Shop.final_kwargs c8_doc_children =
      Except.ok [("name", KVal.scalar (some "n")),
        ("currencies", KVal.currencyList [])] ∧
    (∀ k ∈ ([("name", KVal.scalar (some "n")),
        ("currencies", KVal.currencyList [])] : Kwargs).map Prod.fst,
      k ∈ shop_args) ∧
    ([("name", KVal.scalar (some "n")),
        ("currencies", KVal.currencyList [])] : Kwargs).lookup "foreign" =
      Option.none ∧
    ([("name", KVal.scalar (some "n")),
        ("currencies", KVal.currencyList [])] : Kwargs).lookup "currencies" =
      some (KVal.currencyList []) :=
  ⟨by decide,
    ((C8_kwargs_filtered c8_doc_children []).1 _ (by decide)).1,
    ((C8_kwargs_filtered c8_doc_children []).1 _ (by decide)).2 "foreign"
      (by decide),
    (C8_kwargs_filtered c8_doc_children []).2.1
      [("name", KVal.scalar (some "n")), ("foreign", KVal.scalar (some "x"))]
      [("name", KVal.scalar (some "n")), ("currencies", KVal.currencyList [])]
      (by decide) (by decide) (by decide)⟩

/-- The net effect of one scalar-element emission on the decoder's
kwargs: nothing when the value was falsy (not emitted), a dict assignment
otherwise. -/
def optInsert (kw : Kwargs) (tag : String) (v : Option String) : Kwargs :=
  match v with
  | Option.none => kw
  | some x => if x = "" then kw else kwInsert kw tag (KVal.scalar (some x))

theorem lookup_append_some (kw kw2 : Kwargs) (k : String) (x : KVal)
    (h : kw.lookup k = some x) : (kw ++ kw2).lookup k = some x := by
  induction kw with
  | nil => simp [List.lookup] at h
  | cons kv tail ih =>
    obtain ⟨k', v'⟩ := kv
    rw [List.cons_append]
    by_cases hk : k = k'
    · simp [List.lookup, hk] at h ⊢
      exact h
    · simp only [List.lookup,
        show (k == k') = false by simpa using hk] at h ⊢
      exact ih h

theorem lookup_map_replace_self (kw : Kwargs) (k : String) (v : KVal)
    (h : (kw.lookup k).isSome) :
    (kw.map (fun kv => if kv.1 = k then (k, v) else kv)).lookup k = some v := by
  induction kw with
  | nil => simp [List.lookup] at h
  | cons kv tail ih =>
    obtain ⟨k', v'⟩ := kv
    by_cases hk : k' = k
    · subst hk
      simp only [List.map_cons]
      simp [List.lookup]
    · simp only [List.map_cons]
      rw [if_neg (by simpa using hk)]
      have hbeq : (k == k') = false := by
        simpa using fun he => hk he.symm
      simp only [List.lookup, hbeq] at h ⊢
      exact ih h

theorem lookup_map_replace_ne (kw : Kwargs) (t : String) (v : KVal)
    (k : String) (h : ¬k = t) :
    (kw.map (fun kv => if kv.1 = t then (t, v) else kv)).lookup k =
      kw.lookup k := by
  induction kw with
  | nil => rfl
  | cons kv tail ih =>
    obtain ⟨k', v'⟩ := kv
    simp only [List.map_cons]
    by_cases hk' : k' = t
    · rw [if_pos (by simpa using hk')]
      have hbeq : (k == t) = false := by simpa using h
      have hbeq' : (k == k') = false := by
        simpa using fun he => h (he.trans hk')
      simp only [List.lookup, hbeq, hbeq']
      exact ih
    · rw [if_neg (by simpa using hk')]
      by_cases hk : k = k'
      · simp [List.lookup, hk]
      · simp only [List.lookup,
          show (k == k') = false by simpa using hk]
        exact ih

theorem lookup_kwInsert_self (kw : Kwargs) (k : String) (v : KVal) :
    (kwInsert kw k v).lookup k = some v := by
  unfold kwInsert
  split
  · next h => exact lookup_map_replace_self kw k v h
  · next h =>
    have hnone : kw.lookup k = Option.none := by
      rcases hx : kw.lookup k with _ | x
      · rfl
      · rw [hx] at h
        simp at h
    rw [lookup_append_right_none _ _ _ hnone]
    simp [List.lookup]

theorem lookup_kwInsert_ne (kw : Kwargs) (t : String) (v : KVal)
    (k : String) (h : ¬k = t) :
    (kwInsert kw t v).lookup k = kw.lookup k := by
  unfold kwInsert
  split
  · exact lookup_map_replace_ne kw t v k h
  · rcases hx : kw.lookup k with _ | x
    · rw [lookup_append_right_none _ _ _ hx]
      simp [List.lookup, show (k == t) = false by simpa using h]
    · exact lookup_append_some _ _ _ _ hx

theorem lookup_optInsert_ne (kw : Kwargs) (t : String) (v : Option String)
    (k : String) (h : ¬k = t) :
    (optInsert kw t v).lookup k = kw.lookup k := by
  rcases v with _ | x
  · rfl
  · by_cases hx : x = ""
    · simp [optInsert, hx]
    · simp [optInsert, hx, lookup_kwInsert_ne _ _ _ _ h]

theorem lookup_ite (c : Prop) [Decidable c] (a b : Kwargs) (k : String) :
    (if c then a else b).lookup k = if c then a.lookup k else b.lookup k := by
  split <;> rfl

theorem map_from_to_currency (l : List Currency) :
    l.map (Currency.from_xml ∘ Currency.to_xml) = l := by
  induction l with
  | nil => rfl
  | cons c tail ih => simp [ih, Function.comp, currency_from_to_xml]

theorem map_from_to_category (l : List Category) :
    l.map (Category.from_xml ∘ Category.to_xml) = l := by
  induction l with
  | nil => rfl
  | cons c tail ih => simp [ih, Function.comp, category_from_to_xml]

theorem map_from_to_option (l : List Option') :
    l.map (Option'.from_xml ∘ Option'.to_xml) = l := by
  induction l with
  | nil => rfl
  | cons c tail ih => simp [ih, Function.comp, option_from_to_xml]

theorem map_from_to_gift (l : List Gift) :
    l.map (Gift.from_xml ∘ Gift.to_xml) = l := by
  induction l with
  | nil => rfl
  | cons c tail ih => simp [ih, Function.comp, gift_from_to_xml]

theorem map_from_to_promo (l : List Promo) :
    l.map (Promo.from_xml ∘ Promo.to_xml) = l := by
  induction l with
  | nil => rfl
  | cons c tail ih => simp [ih, Function.comp, promo_from_to_xml]

theorem mapExcept_offer_roundtrip (l : List Offer) :
    mapExcept offer_from_xml_elem (l.map Offer.to_xml) = Except.ok l := by
  induction l with
  | nil => rfl
  | cons o tail ih =>
    simp [mapExcept, offer_from_to_xml, ih, Bind.bind, Except.bind]

theorem map_fromxml_filterMap_currencies (l : List CurrencyItem) :
    ((l.filterMap (fun c => match c with
      | CurrencyItem.cur c => some (Currency.to_xml c)
      | CurrencyItem.str _ => Option.none)).map Currency.from_xml) =
    l.filterMap (fun c => match c with
      | CurrencyItem.cur c => some c
      | CurrencyItem.str _ => Option.none) := by
  induction l with
  | nil => rfl
  | cons c tail ih =>
    rcases c with cu | st
    · simp [List.filterMap_cons, ih, currency_from_to_xml]
    · simp [List.filterMap_cons, ih]

theorem filterMap_cur_of_wf (l : List CurrencyItem)
    (h : ∀ c ∈ l, ∃ cu, c = CurrencyItem.cur cu) :
    (l.filterMap (fun c => match c with
      | CurrencyItem.cur c => some c
      | CurrencyItem.str _ => Option.none)).map CurrencyItem.cur = l := by
  induction l with
  | nil => rfl
  | cons c tail ih =>
    obtain ⟨cu, rfl⟩ := h c (List.mem_cons_self c tail)
    simp [List.filterMap_cons, ih (fun x hx => h x (List.mem_cons_of_mem _ hx))]

theorem foldlM_seg (seg rest : List XMLElement) (kw kw' : Kwargs)
    (hseg : List.foldlM Shop.process_child kw seg = Except.ok kw') :
    List.foldlM Shop.process_child kw (seg ++ rest) =
      List.foldlM Shop.process_child kw' rest := by
  rw [List.foldlM_append, hseg]
  rfl

theorem fold_optEl (kw : Kwargs) (tag : String) (v : Option String)
    (h1 : ¬tag = "currencies") (h2 : ¬tag = "categories")
    (h3 : ¬tag = "delivery-options") (h4 : ¬tag = "pickup-options")
    (h5 : ¬tag = "offers") (h6 : ¬tag = "gifts") (h7 : ¬tag = "promos") :
    List.foldlM Shop.process_child kw (optEl tag v) =
      Except.ok (optInsert kw tag v) := by
  rcases v with _ | x
  · rfl
  · by_cases hx : x = ""
    · simp [optEl, optInsert, hx, pure, Except.pure]
    · simp [optEl, optInsert, hx, List.foldlM, Shop.process_child,
        h1, h2, h3, h4, h5, h6, h7, Bind.bind, Except.bind, pure, Except.pure]

theorem fold_currencies (kw : Kwargs) (l : List CurrencyItem) :
    List.foldlM Shop.process_child kw
      [XMLElement.mk "currencies" [] Option.none
        (l.filterMap (fun c => match c with
          | CurrencyItem.cur c => some (Currency.to_xml c)
          | CurrencyItem.str _ => Option.none))] =
    Except.ok (kwInsert kw "currencies"
      (KVal.currencyList (l.filterMap (fun c => match c with
        | CurrencyItem.cur c => some c
        | CurrencyItem.str _ => Option.none)))) := by
  simp [List.foldlM, Shop.process_child, map_fromxml_filterMap_currencies,
    Bind.bind, Except.bind, pure, Except.pure]

theorem fold_categories (kw : Kwargs) (l : List Category) :
    List.foldlM Shop.process_child kw
      [XMLElement.mk "categories" [] Option.none (l.map Category.to_xml)] =
    Except.ok (kwInsert kw "categories" (KVal.categoryList l)) := by
  simp [List.foldlM, Shop.process_child, map_from_to_category,
    Bind.bind, Except.bind, pure, Except.pure]

theorem fold_delivery (kw : Kwargs) (l : List Option') :
    List.foldlM Shop.process_child kw
      (if l = [] then [] else
        [XMLElement.mk "delivery-options" [] Option.none
          (l.map Option'.to_xml)]) =
    Except.ok (if l = [] then kw
      else kwInsert kw "delivery_options" (KVal.optionList l)) := by
  by_cases hl : l = []
  · simp [hl, pure, Except.pure]
  · simp [hl, List.foldlM, Shop.process_child, map_from_to_option,
      Bind.bind, Except.bind, pure, Except.pure]

theorem fold_pickup (kw : Kwargs) (l : List Option') :
    List.foldlM Shop.process_child kw
      (if l = [] then [] else
        [XMLElement.mk "pickup-options" [] Option.none
          (l.map Option'.to_xml)]) =
    Except.ok (if l = [] then kw
      else kwInsert kw "pickup_options" (KVal.optionList l)) := by
  by_cases hl : l = []
  · simp [hl, pure, Except.pure]
  · simp [hl, List.foldlM, Shop.process_child, map_from_to_option,
      Bind.bind, Except.bind, pure, Except.pure]

theorem fold_offers (kw : Kwargs) (l : List Offer) :
    List.foldlM Shop.process_child kw
      [XMLElement.mk "offers" [] Option.none (l.map Offer.to_xml)] =
    Except.ok (kwInsert kw "offers" (KVal.offerList l)) := by
  simp [List.foldlM, Shop.process_child, mapExcept_offer_roundtrip,
    Bind.bind, Except.bind, pure, Except.pure]

theorem fold_gifts (kw : Kwargs) (l : List Gift) :
    List.foldlM Shop.process_child kw
      (if l = [] then [] else
        [XMLElement.mk "gifts" [] Option.none (l.map Gift.to_xml)]) =
    Except.ok (if l = [] then kw
      else kwInsert kw "gifts" (KVal.giftList l)) := by
  by_cases hl : l = []
  · simp [hl, pure, Except.pure]
  · simp [hl, List.foldlM, Shop.process_child, map_from_to_gift,
      Bind.bind, Except.bind, pure, Except.pure]

theorem fold_promos (kw : Kwargs) (l : List Promo) :
    List.foldlM Shop.process_child kw
      (if l = [] then [] else
        [XMLElement.mk "promos" [] Option.none (l.map Promo.to_xml)]) =
    Except.ok (if l = [] then kw
      else kwInsert kw "promos" (KVal.promoList l)) := by
  by_cases hl : l = []
  · simp [hl, pure, Except.pure]
  · simp [hl, List.foldlM, Shop.process_child, map_from_to_promo,
      Bind.bind, Except.bind, pure, Except.pure]

theorem optInsert_none (kw : Kwargs) (t : String) :
    optInsert kw t Option.none = kw := rfl

theorem optInsert_some (kw : Kwargs) (t : String) (x : String)
    (hx : ¬x = "") :
    optInsert kw t (some x) = kwInsert kw t (KVal.scalar (some x)) := by
  simp [optInsert, hx]

/-- The kwargs dict `Shop.from_xml` accumulates on the children of
`Shop.create_xml s`, segment by segment. -/
def shopKW (s : Shop) : Kwargs :=
  let k1 := optInsert [] "name" s.name
  let k2 := optInsert k1 "company" s.company
  let k3 := optInsert k2 "url" s.url
  let k4 := optInsert k3 "platform" s.platform
  let k5 := optInsert k4 "version" s.version
  let k6 := optInsert k5 "agency" s.agency
  let k7 := optInsert k6 "email" s.email
  let k8 := kwInsert k7 "currencies"
    (KVal.currencyList (s.currencies.filterMap (fun c => match c with
      | CurrencyItem.cur c => some c
      | CurrencyItem.str _ => Option.none)))
  let k9 := kwInsert k8 "categories" (KVal.categoryList s.categories)
  let k10 := if s.delivery_options = [] then k9
    else kwInsert k9 "delivery_options" (KVal.optionList s.delivery_options)
  let k11 := if s.pickup_options = [] then k10
    else kwInsert k10 "pickup_options" (KVal.optionList s.pickup_options)
  let k12 := optInsert k11 "enable_auto_discounts" s.enable_auto_discounts_raw
  let k13 := kwInsert k12 "offers" (KVal.offerList s.offers)
  let k14 := if s.gifts = [] then k13
    else kwInsert k13 "gifts" (KVal.giftList s.gifts)
  if s.promos = [] then k14
  else kwInsert k14 "promos" (KVal.promoList s.promos)

theorem raw_kwargs_create_xml (s : Shop) :
    Shop.raw_kwargs (Shop.create_xml s).children = Except.ok (shopKW s) := by
  unfold Shop.raw_kwargs
  rw [Shop.create_xml]
  simp only [XMLElement.children_mk, List.append_assoc]
  rw [foldlM_seg _ _ _ _ (fold_optEl [] "name" s.name (by decide) (by decide)
    (by decide) (by decide) (by decide) (by decide) (by decide))]
  rw [foldlM_seg _ _ _ _ (fold_optEl _ "company" s.company (by decide)
    (by decide) (by decide) (by decide) (by decide) (by decide) (by decide))]
  rw [foldlM_seg _ _ _ _ (fold_optEl _ "url" s.url (by decide) (by decide)
    (by decide) (by decide) (by decide) (by decide) (by decide))]
  rw [foldlM_seg _ _ _ _ (fold_optEl _ "platform" s.platform (by decide)
    (by decide) (by decide) (by decide) (by decide) (by decide) (by decide))]
  rw [foldlM_seg _ _ _ _ (fold_optEl _ "version" s.version (by decide)
    (by decide) (by decide) (by decide) (by decide) (by decide) (by decide))]
  rw [foldlM_seg _ _ _ _ (fold_optEl _ "agency" s.agency (by decide)
    (by decide) (by decide) (by decide) (by decide) (by decide) (by decide))]
  rw [foldlM_seg _ _ _ _ (fold_optEl _ "email" s.email (by decide)
    (by decide) (by decide) (by decide) (by decide) (by decide) (by decide))]
  rw [foldlM_seg _ _ _ _ (fold_currencies _ s.currencies)]
  rw [foldlM_seg _ _ _ _ (fold_categories _ s.categories)]
  rw [foldlM_seg _ _ _ _ (fold_delivery _ s.delivery_options)]
  rw [foldlM_seg _ _ _ _ (fold_pickup _ s.pickup_options)]
  rw [foldlM_seg _ _ _ _ (fold_optEl _ "enable_auto_discounts"
    s.enable_auto_discounts_raw (by decide) (by decide) (by decide)
    (by decide) (by decide) (by decide) (by decide))]
  rw [foldlM_seg _ _ _ _ (fold_offers _ s.offers)]
  rw [foldlM_seg _ _ _ _ (fold_gifts _ s.gifts)]
  rw [fold_promos]
  rfl

/-- A validly constructed, faithfully round-trippable Shop: the required
`name`/`company` are non-empty strings, every optional scalar is either
absent or non-empty (`Shop.create_xml` silently drops falsy scalars, so
an empty string cannot survive a round trip), the currencies are genuine
`Currency` values (a plain string member crashes `create_dict` and is
skipped by `create_xml`), and the stored auto-discount token is one of
the setter's normalized forms (as holds for every Shop built through
`Shop.init`). -/
structure ShopWF (s : Shop) : Prop where
  name_ok : ∃ v, s.name = some v ∧ v ≠ ""
  company_ok : ∃ v, s.company = some v ∧ v ≠ ""
  url_ok : s.url ≠ some ""
  platform_ok : s.platform ≠ some ""
  version_ok : s.version ≠ some ""
  agency_ok : s.agency ≠ some ""
  email_ok : s.email ≠ some ""
  cur_ok : ∀ c ∈ s.currencies, ∃ cu, c = CurrencyItem.cur cu
  ead_ok : s.enable_auto_discounts_raw = Option.none ∨
    s.enable_auto_discounts_raw = some "true" ∨
    s.enable_auto_discounts_raw = some "false"

theorem shop_from_xml_create_xml (s : Shop) (hwf : ShopWF s) :
    Shop.from_xml (Shop.create_xml s) = Except.ok s := by
  obtain ⟨⟨nv, hnm, hnv⟩, ⟨cv, hcp, hcv⟩, hu, hpl, hvr, hag, hem, hcur, head⟩ :=
    hwf
  obtain ⟨nm, cp, u, pl, vr, ag, em, cur, cat, dl, pu, ead, off, gf, pr⟩ := s
  simp only at hnm hcp hu hpl hvr hag hem hcur head
  subst hnm
  subst hcp
  have hraw := raw_kwargs_create_xml
    ⟨some nv, some cv, u, pl, vr, ag, em, cur, cat, dl, pu, ead, off, gf, pr⟩
  have hcurfm : (shopKW ⟨some nv, some cv, u, pl, vr, ag, em, cur, cat, dl,
      pu, ead, off, gf, pr⟩).lookup "currencies" =
      some (KVal.currencyList (cur.filterMap (fun c => match c with
        | CurrencyItem.cur c => some c
        | CurrencyItem.str _ => Option.none))) := by
    simp [shopKW, lookup_ite, lookup_kwInsert_ne, lookup_optInsert_ne,
      lookup_kwInsert_self, ite_self]
  have hfinal : Shop.final_kwargs
      (Shop.create_xml ⟨some nv, some cv, u, pl, vr, ag, em, cur, cat, dl,
        pu, ead, off, gf, pr⟩).children =
      Except.ok ((shopKW ⟨some nv, some cv, u, pl, vr, ag, em, cur, cat, dl,
        pu, ead, off, gf, pr⟩).filter
          (fun kv => shop_args.contains kv.1)) := by
    rw [Shop.final_kwargs, hraw]
    simp only [Bind.bind, Except.bind, hcurfm, Option.isSome_some, if_true]
  have hcur2 := filterMap_cur_of_wf cur hcur
  have eName : kwReqScalar ((shopKW ⟨some nv, some cv, u, pl, vr, ag, em, cur,
      cat, dl, pu, ead, off, gf, pr⟩).filter
        (fun kv => shop_args.contains kv.1)) "name" = Except.ok (some nv) := by
    simp only [kwReqScalar]
    rw [lookup_filter_args _ _ (by decide)]
    simp [shopKW, lookup_ite, lookup_kwInsert_ne, lookup_optInsert_ne,
      lookup_kwInsert_self, ite_self, optInsert_some _ _ _ hnv]
  have eComp : kwReqScalar ((shopKW ⟨some nv, some cv, u, pl, vr, ag, em, cur,
      cat, dl, pu, ead, off, gf, pr⟩).filter
        (fun kv => shop_args.contains kv.1)) "company" = Except.ok (some cv) := by
    simp only [kwReqScalar]
    rw [lookup_filter_args _ _ (by decide)]
    simp [shopKW, lookup_ite, lookup_kwInsert_ne, lookup_optInsert_ne,
      lookup_kwInsert_self, ite_self, optInsert_some _ _ _ hcv]
  have eCur : kwReqCurrencies ((shopKW ⟨some nv, some cv, u, pl, vr, ag, em,
      cur, cat, dl, pu, ead, off, gf, pr⟩).filter
        (fun kv => shop_args.contains kv.1)) =
      Except.ok (cur.filterMap (fun c => match c with
        | CurrencyItem.cur c => some c
        | CurrencyItem.str _ => Option.none)) := by
    simp only [kwReqCurrencies]
    rw [lookup_filter_args _ _ (by decide), hcurfm]
  have eCat : kwReqCategories ((shopKW ⟨some nv, some cv, u, pl, vr, ag, em,
      cur, cat, dl, pu, ead, off, gf, pr⟩).filter
        (fun kv => shop_args.contains kv.1)) = Except.ok cat := by
    simp only [kwReqCategories]
    rw [lookup_filter_args _ _ (by decide)]
    simp [shopKW, lookup_ite, lookup_kwInsert_ne, lookup_optInsert_ne,
      lookup_kwInsert_self, ite_self]
  have eOff : kwReqOffers ((shopKW ⟨some nv, some cv, u, pl, vr, ag, em,
      cur, cat, dl, pu, ead, off, gf, pr⟩).filter
        (fun kv => shop_args.contains kv.1)) = Except.ok off := by
    simp only [kwReqOffers]
    rw [lookup_filter_args _ _ (by decide)]
    simp [shopKW, lookup_ite, lookup_kwInsert_ne, lookup_optInsert_ne,
      lookup_kwInsert_self, ite_self]
  have eUrl : kwOptScalar ((shopKW ⟨some nv, some cv, u, pl, vr, ag, em,
      cur, cat, dl, pu, ead, off, gf, pr⟩).filter
        (fun kv => shop_args.contains kv.1)) "url" = Except.ok u := by
    rcases u with _ | uv
    · simp only [kwOptScalar]
      rw [lookup_filter_args _ _ (by decide)]
      simp [shopKW, lookup_ite, lookup_kwInsert_ne, lookup_optInsert_ne,
        lookup_kwInsert_self, ite_self, optInsert_none, List.lookup]
    · have huv : ¬uv = "" := fun h => hu (by rw [h])
      simp only [kwOptScalar]
      rw [lookup_filter_args _ _ (by decide)]
      simp [shopKW, lookup_ite, lookup_kwInsert_ne, lookup_optInsert_ne,
        lookup_kwInsert_self, ite_self, optInsert_some _ _ _ huv]
  have ePlat : kwOptScalar ((shopKW ⟨some nv, some cv, u, pl, vr, ag, em,
      cur, cat, dl, pu, ead, off, gf, pr⟩).filter
        (fun kv => shop_args.contains kv.1)) "platform" = Except.ok pl := by
    rcases pl with _ | xv
    · simp only [kwOptScalar]
      rw [lookup_filter_args _ _ (by decide)]
      simp [shopKW, lookup_ite, lookup_kwInsert_ne, lookup_optInsert_ne,
        lookup_kwInsert_self, ite_self, optInsert_none, List.lookup]
    · have hxv : ¬xv = "" := fun h => hpl (by rw [h])
      simp only [kwOptScalar]
      rw [lookup_filter_args _ _ (by decide)]
      simp [shopKW, lookup_ite, lookup_kwInsert_ne, lookup_optInsert_ne,
        lookup_kwInsert_self, ite_self, optInsert_some _ _ _ hxv]
  have eVer : kwOptScalar ((shopKW ⟨some nv, some cv, u, pl, vr, ag, em,
      cur, cat, dl, pu, ead, off, gf, pr⟩).filter
        (fun kv => shop_args.contains kv.1)) "version" = Except.ok vr := by
    rcases vr with _ | xv
    · simp only [kwOptScalar]
      rw [lookup_filter_args _ _ (by decide)]
      simp [shopKW, lookup_ite, lookup_kwInsert_ne, lookup_optInsert_ne,
        lookup_kwInsert_self, ite_self, optInsert_none, List.lookup]
    · have hxv : ¬xv = "" := fun h => hvr (by rw [h])
      simp only [kwOptScalar]
      rw [lookup_filter_args _ _ (by decide)]
      simp [shopKW, lookup_ite, lookup_kwInsert_ne, lookup_optInsert_ne,
        lookup_kwInsert_self, ite_self, optInsert_some _ _ _ hxv]
  have eAg : kwOptScalar ((shopKW ⟨some nv, some cv, u, pl, vr, ag, em,
      cur, cat, dl, pu, ead, off, gf, pr⟩).filter
        (fun kv => shop_args.contains kv.1)) "agency" = Except.ok ag := by
    rcases ag with _ | xv
    · simp only [kwOptScalar]
      rw [lookup_filter_args _ _ (by decide)]
      simp [shopKW, lookup_ite, lookup_kwInsert_ne, lookup_optInsert_ne,
        lookup_kwInsert_self, ite_self, optInsert_none, List.lookup]
    · have hxv : ¬xv = "" := fun h => hag (by rw [h])
      simp only [kwOptScalar]
      rw [lookup_filter_args _ _ (by decide)]
      simp [shopKW, lookup_ite, lookup_kwInsert_ne, lookup_optInsert_ne,
        lookup_kwInsert_self, ite_self, optInsert_some _ _ _ hxv]
  have eEm : kwOptScalar ((shopKW ⟨some nv, some cv, u, pl, vr, ag, em,
      cur, cat, dl, pu, ead, off, gf, pr⟩).filter
        (fun kv => shop_args.contains kv.1)) "email" = Except.ok em := by
    rcases em with _ | xv
    · simp only [kwOptScalar]
      rw [lookup_filter_args _ _ (by decide)]
      simp [shopKW, lookup_ite, lookup_kwInsert_ne, lookup_optInsert_ne,
        lookup_kwInsert_self, ite_self, optInsert_none, List.lookup]
    · have hxv : ¬xv = "" := fun h => hem (by rw [h])
      simp only [kwOptScalar]
      rw [lookup_filter_args _ _ (by decide)]
      simp [shopKW, lookup_ite, lookup_kwInsert_ne, lookup_optInsert_ne,
        lookup_kwInsert_self, ite_self, optInsert_some _ _ _ hxv]
  have eDl : kwOptionList ((shopKW ⟨some nv, some cv, u, pl, vr, ag, em,
      cur, cat, dl, pu, ead, off, gf, pr⟩).filter
        (fun kv => shop_args.contains kv.1)) "delivery_options" =
      Except.ok dl := by
    by_cases hdl : dl = []
    · subst hdl
      simp only [kwOptionList]
      rw [lookup_filter_args _ _ (by decide)]
      simp [shopKW, lookup_ite, lookup_kwInsert_ne, lookup_optInsert_ne,
        lookup_kwInsert_self, ite_self, List.lookup]
    · simp only [kwOptionList]
      rw [lookup_filter_args _ _ (by decide)]
      simp [shopKW, hdl, lookup_ite, lookup_kwInsert_ne, lookup_optInsert_ne,
        lookup_kwInsert_self, ite_self]
  have ePu : kwOptionList ((shopKW ⟨some nv, some cv, u, pl, vr, ag, em,
      cur, cat, dl, pu, ead, off, gf, pr⟩).filter
        (fun kv => shop_args.contains kv.1)) "pickup_options" =
      Except.ok pu := by
    by_cases hpu : pu = []
    · subst hpu
      simp only [kwOptionList]
      rw [lookup_filter_args _ _ (by decide)]
      simp [shopKW, lookup_ite, lookup_kwInsert_ne, lookup_optInsert_ne,
        lookup_kwInsert_self, ite_self, List.lookup]
    · simp only [kwOptionList]
      rw [lookup_filter_args _ _ (by decide)]
      simp [shopKW, hpu, lookup_ite, lookup_kwInsert_ne, lookup_optInsert_ne,
        lookup_kwInsert_self, ite_self]
  have eEad : ∃ ei, kwEadInput ((shopKW ⟨some nv, some cv, u, pl, vr, ag, em,
      cur, cat, dl, pu, ead, off, gf, pr⟩).filter
        (fun kv => shop_args.contains kv.1)) = Except.ok ei ∧
      ead_set ei = Except.ok ead := by
    rcases head with h | h | h <;> subst h
    · refine ⟨EADInput.none, ?_, rfl⟩
      simp only [kwEadInput]
      rw [lookup_filter_args _ _ (by decide)]
      simp [shopKW, lookup_ite, lookup_kwInsert_ne, lookup_optInsert_ne,
        lookup_kwInsert_self, ite_self, optInsert_none, List.lookup]
    · refine ⟨EADInput.str "true", ?_, by decide⟩
      simp only [kwEadInput]
      rw [lookup_filter_args _ _ (by decide)]
      simp [shopKW, lookup_ite, lookup_kwInsert_ne, lookup_optInsert_ne,
        lookup_kwInsert_self, ite_self, optInsert_some _ _ "true" (by decide)]
    · refine ⟨EADInput.str "false", ?_, by decide⟩
      simp only [kwEadInput]
      rw [lookup_filter_args _ _ (by decide)]
      simp [shopKW, lookup_ite, lookup_kwInsert_ne, lookup_optInsert_ne,
        lookup_kwInsert_self, ite_self, optInsert_some _ _ "false" (by decide)]
  obtain ⟨ei, hei1, hei2⟩ := eEad
  have eGf : kwGiftList ((shopKW ⟨some nv, some cv, u, pl, vr, ag, em,
      cur, cat, dl, pu, ead, off, gf, pr⟩).filter
        (fun kv => shop_args.contains kv.1)) = Except.ok gf := by
    by_cases hgf : gf = []
    · subst hgf
      simp only [kwGiftList]
      rw [lookup_filter_args _ _ (by decide)]
      simp [shopKW, lookup_ite, lookup_kwInsert_ne, lookup_optInsert_ne,
        lookup_kwInsert_self, ite_self, List.lookup]
    · simp only [kwGiftList]
      rw [lookup_filter_args _ _ (by decide)]
      simp [shopKW, hgf, lookup_ite, lookup_kwInsert_ne, lookup_optInsert_ne,
        lookup_kwInsert_self, ite_self]
  have ePr : kwPromoList ((shopKW ⟨some nv, some cv, u, pl, vr, ag, em,
      cur, cat, dl, pu, ead, off, gf, pr⟩).filter
        (fun kv => shop_args.contains kv.1)) = Except.ok pr := by
    by_cases hpr : pr = []
    · subst hpr
      simp only [kwPromoList]
      rw [lookup_filter_args _ _ (by decide)]
      simp [shopKW, lookup_ite, lookup_kwInsert_ne, lookup_optInsert_ne,
        lookup_kwInsert_self, ite_self, List.lookup]
    · simp only [kwPromoList]
      rw [lookup_filter_args _ _ (by decide)]
      simp [shopKW, hpr, lookup_ite, lookup_kwInsert_ne, lookup_optInsert_ne,
        lookup_kwInsert_self, ite_self]
  rw [Shop.from_xml, hfinal]
  simp only [Bind.bind, Except.bind, Shop.of_kwargs, eName, eComp, eCur, eCat,
    eOff, eUrl, ePlat, eVer, eAg, eEm, eDl, ePu, hei1, hei2, eGf, ePr,
    Shop.url_set, hcur2]

theorem sample_shop_wf : ShopWF sample_shop := by
  refine ⟨⟨"shop", rfl, by decide⟩, ⟨"company", rfl, by decide⟩,
    by decide, by decide, by decide, by decide, by decide, ?_, ?_⟩
  · intro c hc
    simp [sample_shop] at hc
  · left
    rfl

/-- C1 (amended): for every validly constructed Feed whose Shop is
round-trippable — required scalars non-empty, optional scalars absent or
non-empty, currency members genuine `Currency` values, stored
auto-discount token in normalized form — decoding the element produced by
encoding yields the very same Feed, hence an equal dict representation
(the stored date is already normalized at construction, so no further
date discrepancy remains). -/
theorem C1_roundtrip_amended (s : Shop) (di : Option String)
    (now now2 : DateTime) (hnow : ValidDT now) (hwf : ShopWF s) :
    ∃ f', Feed.from_xml (Feed.create_xml (Feed.init s di now)) now2 =
        Except.ok f' ∧
      f' = Feed.init s di now ∧
      Feed.create_dict f' = Feed.create_dict (Feed.init s di now) := by
  obtain ⟨d, hd, hset⟩ := feed_date_set_normalized di now hnow
  refine ⟨Feed.init s di now, ?_, rfl, rfl⟩
  have hdate : feed_date_set (some (feed_date_set di now)) now2 =
      feed_date_set di now := by
    rw [hset, feed_date_set_format_primary d hd]
  simp [Feed.from_xml, Feed.create_xml, Feed.init,
    shop_from_xml_create_xml s hwf, List.lookup, hdate, Bind.bind,
    Except.bind]

theorem C1_roundtrip_amended_witness :
    ShopWF sample_shop ∧ ValidDT ⟨2021, 1, 2, 3, 4, 5⟩ ∧
    ∃ f', Feed.from_xml
        (Feed.create_xml (Feed.init sample_shop Option.none ⟨2021, 1, 2, 3, 4, 5⟩))
        ⟨2021, 1, 2, 3, 4, 5⟩ = Except.ok f' ∧
      f' = Feed.init sample_shop Option.none ⟨2021, 1, 2, 3, 4, 5⟩ ∧
      Feed.create_dict f' =
        Feed.create_dict (Feed.init sample_shop Option.none ⟨2021, 1, 2, 3, 4, 5⟩) :=
  ⟨sample_shop_wf, by decide,
    C1_roundtrip_amended sample_shop Option.none ⟨2021, 1, 2, 3, 4, 5⟩
      ⟨2021, 1, 2, 3, 4, 5⟩ (by decide) sample_shop_wf⟩

/-- A validly constructed shop whose url is the empty string (accepted by
the url setter, which bounds only the length at 512 in the intended
code and checks nothing in the source). -/
def c1_shop : Shop :=
  { name := some "n", company := some "c", url := some "",
    platform := Option.none, version := Option.none, agency := Option.none,
    email := Option.none, currencies := [], categories := [],
    delivery_options := [], pickup_options := [],
    enable_auto_discounts_raw := Option.none, offers := [], gifts := [],
    promos := [] }

/-- The ambient current time used in the C1 counterexample. -/
def c1_now : DateTime := ⟨2020, 1, 1, 0, 0, 0⟩

/-- The counterexample Feed: a valid date and a shop with `url = ""`. -/
def c1_feed : Feed := Feed.init c1_shop (some "2020-01-02 03:04:05") c1_now

/-- C1 (counterexample to the claim as stated): `Shop.create_xml` skips
falsy scalars (`if value:`), so the empty-string url of a validly
constructed Feed is not emitted and decodes back to `None`; the dict
representations of the round-tripped and the original Feed therefore
differ at the `url` key, beyond any date normalization. -/
theorem C1_roundtrip_counterexample :
    ∃ f', Feed.from_xml (Feed.create_xml c1_feed) c1_now = Except.ok f' ∧
      c1_feed.shop.url = some "" ∧ f'.shop.url = Option.none ∧
      Feed.create_dict f' ≠ Feed.create_dict c1_feed := by
  refine ⟨_, rfl, rfl, rfl, ?_⟩
  intro hEq
  exact absurd (congrArg (fun x => match x with
    | some (DVal.dict l) =>
      (match l.lookup "shop" with
       | some (DVal.dict sl) =>
         (match sl.lookup "url" with
          | some (DVal.s v) => "s:" ++ v
          | some DVal.none => "absent"
          | _ => "?")
       | _ => "?")
    | _ => "?") hEq) (by decide)
